import Mathlib

/-!
Shallow embedding of the multi-level scope authorization engine of the
`controle` Django app (files `controle/models.py` and `controle/permissions.py`).

Modelling conventions:
* Django model rows become Lean structures; a nullable foreign key becomes an
  `Option` of the referenced structure (the object graph is materialized, so
  attribute navigation like `setor.departamento.secretaria` is direct field
  access, exactly as in the Python source).
* This repository's `models.py` defines no `Orgao`, no `AcessoOrgao`: in
  `permissions.py` the guarded imports leave `Orgao = None`,
  `HAS_ACESSO_ORGAO = False`, while `Escola`/`Departamento`/`AcessoEscola`
  give `HAS_ESCOLA_DEPARTAMENTO = True` and `FuncaoPermissao` gives
  `HAS_FUNCAO_PERMISSAO = True`.  The embedding is specialized to these
  capability values, and every `getattr`/`hasattr` on an attribute that does
  not exist on this repository's models (`setor.orgao`, `setor.prefeitura_id`,
  `setor.secretaria_resolvida`, `s.orgao_id` on a `UserScope` row) is resolved
  to its constant outcome, recorded in a comment at the use site.
* Database query sets are lists of rows; `filter` is `List.filter`;
  `.exists()` is `List.any`; `.distinct()` is the identity on an already
  deduplicated list.
* Django resolves the field names of a query eagerly, and this matters on
  this repository's `Setor` (no `orgao` field, no stored `prefeitura`
  column): a `select_related` naming a non-field raises `FieldError` when
  the queryset is iterated, and a `Q` lookup through a non-field raises
  `FieldError` at `.filter(...)` itself, before any row is touched.  The
  embedding reproduces both consequences: the `AcessoSetor` loop of
  `user_scope` always dies on its `select_related("setor__orgao__...",
  "setor__prefeitura")` and the surrounding `except Exception: pass`
  swallows the error, so `AcessoSetor` rows contribute nothing to the
  scope; and every non-admin call of the `filter_*_by_scope` functions
  raises `FieldError` out of the function — modelled as
  `Except FieldError _` results — which propagates uncaught through
  `assert_can_access_funcionario`, `has_funcao_permission` and the
  MANAGE-on-employee branch of `user_can_feature`.
* Python `set` becomes a duplicate-free `List Nat` of primary keys built with
  `List.insert`; membership semantics coincide with the Python set.
* Python truthiness of a primary-key value (`if x.secretaria_id:`) is
  `id != 0`; truthiness of an object is `Option.isSome`.
* String helpers: Python `str.strip` is `pyStrip`, `str.lower`/`str.upper`
  are the ASCII `pyLower`/`pyUpper` below; all concrete strings used in
  theorems below are ASCII, where these agree with Python.
-/

/-- Municipality (`Prefeitura`): root unit; only the primary key matters to the
engine. -/
structure Prefeitura where
  id : Nat
  deriving DecidableEq, Repr

/-- `Secretaria`: belongs to exactly one `Prefeitura` (non-nullable FK). -/
structure Secretaria where
  id : Nat
  prefeitura : Prefeitura
  deriving DecidableEq, Repr

/-- `Escola` (legacy): optional FK to `Secretaria`. -/
structure Escola where
  id : Nat
  secretaria : Option Secretaria
  deriving DecidableEq, Repr

/-- `Departamento` (legacy): exactly one of the three parents is set at write
time, but the engine never relies on that invariant, so all three are plain
options here. -/
structure Departamento where
  id : Nat
  prefeitura : Option Prefeitura
  secretaria : Option Secretaria
  escola : Option Escola
  deriving DecidableEq, Repr

/-- `Setor`: fields `departamento` (recommended) and `secretaria` (legacy).
This model has no `orgao` field and no stored `prefeitura` field. -/
structure Setor where
  id : Nat
  departamento : Option Departamento
  secretaria : Option Secretaria
  deriving DecidableEq, Repr

/-- `Setor.secretaria_oficial` property: the departamento's secretaria when
present, else the legacy direct field. -/
def Setor.secretaria_oficial (s : Setor) : Option Secretaria :=
  match s.departamento with
  | some dep => match dep.secretaria with
    | some sec => some sec
    | none => s.secretaria
  | none => s.secretaria

/-- `Setor.prefeitura` property (derived, not a column). -/
def Setor.prefeitura_prop (s : Setor) : Option Prefeitura :=
  match s.departamento with
  | some dep =>
    match dep.prefeitura with
    | some p => some p
    | none =>
      match dep.secretaria with
      | some sec => some sec.prefeitura
      | none =>
        match dep.escola with
        | some esc => match esc.secretaria with
          | some sec => some sec.prefeitura
          | none => fallbackLegacy s
        | none => fallbackLegacy s
  | none => fallbackLegacy s
where
  fallbackLegacy (s : Setor) : Option Prefeitura :=
    match s.secretaria with
    | some sec => some sec.prefeitura
    | none => none

/-- `Funcionario`: non-nullable FK to `Setor`, job-title string `funcao`, and
the optional reverse one-to-one link to a user (`Funcionario.user`). -/
structure Funcionario where
  id : Nat
  funcao : String
  setor : Setor
  userId : Option Nat
  deriving DecidableEq, Repr

/-- `HorarioTrabalho`: non-nullable FK to `Funcionario`. -/
structure HorarioTrabalho where
  id : Nat
  funcionario : Funcionario
  deriving DecidableEq, Repr

/-- `FolhaFrequencia`: non-nullable FK to `Funcionario`. -/
structure FolhaFrequencia where
  id : Nat
  funcionario : Funcionario
  deriving DecidableEq, Repr

/-- The opaque current user: primary key plus the three flags the engine
reads. -/
structure User where
  id : Nat
  is_authenticated : Bool
  is_superuser : Bool
  is_staff : Bool
  deriving DecidableEq, Repr

/-- `UserScope` row (unified grant): nullable FK per level plus a level
string (`LEITURA` / `GERENCIA`). -/
structure UserScopeRow where
  userId : Nat
  prefeitura : Option Prefeitura
  secretaria : Option Secretaria
  escola : Option Escola
  departamento : Option Departamento
  setor : Option Setor
  nivel : String
  deriving DecidableEq, Repr

/-- `AcessoPrefeitura` row. -/
structure AcessoPrefeituraRow where
  userId : Nat
  prefeitura : Prefeitura
  nivel : String
  deriving DecidableEq, Repr

/-- `AcessoSecretaria` row. -/
structure AcessoSecretariaRow where
  userId : Nat
  secretaria : Secretaria
  nivel : String
  deriving DecidableEq, Repr

/-- `AcessoEscola` row (legacy). -/
structure AcessoEscolaRow where
  userId : Nat
  escola : Escola
  nivel : String
  deriving DecidableEq, Repr

/-- `AcessoSetor` row (legacy per-sector grant). -/
structure AcessoSetorRow where
  userId : Nat
  setor : Setor
  nivel : String
  deriving DecidableEq, Repr

/-- `FuncaoPermissao` row: per-user, per-job-title permission with optional
scope restriction. -/
structure FuncaoPermissaoRow where
  userId : Nat
  nome_funcao : String
  nivel : String
  secretaria : Option Secretaria
  setor : Option Setor
  deriving DecidableEq, Repr

/-- The grant store: every table the engine reads, as lists of rows. -/
structure DB where
  scopes : List UserScopeRow
  acessosPrefeitura : List AcessoPrefeituraRow
  acessosSecretaria : List AcessoSecretariaRow
  acessosEscola : List AcessoEscolaRow
  acessosSetor : List AcessoSetorRow
  funcaoPermissoes : List FuncaoPermissaoRow
  funcionarios : List Funcionario
  deriving DecidableEq, Repr

/-- `user.funcionario`: the reverse one-to-one accessor, `None` when no
employee row links to this user (the source reads it through
`getattr(user, "funcionario", None)`). -/
def userFuncionario (db : DB) (u : User) : Option Funcionario :=
  db.funcionarios.find? (fun f => f.userId == some u.id)

/-- `_is_auth` from permissions.py. -/
def is_auth (u : User) : Bool := u.is_authenticated

/-- `_user_is_admin` from permissions.py. -/
def user_is_admin (u : User) : Bool :=
  is_auth u && (u.is_superuser || u.is_staff)

/-- ASCII lower-casing on the character list (same result as Python's
`str.lower` on ASCII input; kernel-reducible, unlike `String.toLower`). -/
def pyLower (s : String) : String := ⟨s.data.map Char.toLower⟩

/-- ASCII upper-casing on the character list (same result as Python's
`str.upper` on ASCII input). -/
def pyUpper (s : String) : String := ⟨s.data.map Char.toUpper⟩

/-- Whitespace strip on the character list (Python's `str.strip`). -/
def pyStrip (s : String) : String :=
  ⟨((s.data.dropWhile Char.isWhitespace).reverse.dropWhile Char.isWhitespace).reverse⟩

/-- `_norm`: `str(s or "").strip().lower()`. -/
def norm_str (s : String) : String := pyLower (pyStrip s)

/-- `_nivel_to_int`: 1 for GERENCIA (after normalization), else 0. -/
def nivel_to_int (n : String) : Nat :=
  if norm_str n == "gerencia" then 1 else 0

/-- Module constant `LEITURA`. -/
def LEITURA : String := "LEITURA"

/-- Module constant `GERENCIA`. -/
def GERENCIA : String := "GERENCIA"

/-- Python truthiness of an optional primary key value. -/
def optIdTruthy (o : Option Nat) : Bool := o.getD 0 != 0

/-- `_resolve_chain_from_setor`, specialized to this repository's `Setor`
(which has no `orgao` attribute and no `prefeitura_id` column): the `orgao`
component of the returned triple is always `None` and is omitted; the
function returns the `(secretaria, prefeitura)` pair.
Steps, in source order:
1. direct legacy `secretaria` on the sector (guarded by `secretaria_id`
   truthiness);
2. secretaria via `orgao`: no `orgao` attribute, never fires;
3. direct `prefeitura_id` on the sector: not a column, never fires;
4. prefeitura via the secretaria found so far;
5. legacy fallback via `departamento` (the `not orgao` guard is always true
   here): fill the still-missing components from the departamento's own
   `secretaria` / `prefeitura` fields. -/
def resolve_chain_from_setor (setor : Setor) : Option Secretaria × Option Prefeitura :=
  let secretaria : Option Secretaria :=
    if optIdTruthy (setor.secretaria.map (·.id)) then setor.secretaria else none
  let prefeitura : Option Prefeitura := secretaria.map (·.prefeitura)
  match setor.departamento with
  | none => (secretaria, prefeitura)
  | some dep =>
    let secretaria := if secretaria.isSome then secretaria else dep.secretaria
    let prefeitura := if prefeitura.isSome then prefeitura else dep.prefeitura
    (secretaria, prefeitura)

/-- The scope dictionary returned by `user_scope`: the admin sentinel plus
six ID sets (sets are duplicate-free lists of primary keys). -/
structure Scope where
  all : Bool
  prefeituras : List Nat
  secretarias : List Nat
  orgaos : List Nat
  setores : List Nat
  escolas : List Nat
  departamentos : List Nat
  deriving DecidableEq, Repr

/-- The freshly initialized scope dictionary. -/
def emptyScope : Scope :=
  { all := false, prefeituras := [], secretarias := [], orgaos := [],
    setores := [], escolas := [], departamentos := [] }

/-- One iteration of the `user.scopes.all()` loop in `user_scope`.  The
`getattr(s, "orgao_id", None)` read is always `None` (no such field on
`UserScope`), so the `orgaos` set is never touched here. -/
def addUserScopeRow (sc : Scope) (s : UserScopeRow) : Scope :=
  let sc := match s.prefeitura with
    | some p => if p.id != 0 then { sc with prefeituras := sc.prefeituras.insert p.id } else sc
    | none => sc
  let sc := match s.secretaria with
    | some x => if x.id != 0 then { sc with secretarias := sc.secretarias.insert x.id } else sc
    | none => sc
  let sc := match s.setor with
    | some x => if x.id != 0 then { sc with setores := sc.setores.insert x.id } else sc
    | none => sc
  let sc := match s.escola with
    | some x => if x.id != 0 then { sc with escolas := sc.escolas.insert x.id } else sc
    | none => sc
  let sc := match s.departamento with
    | some x => if x.id != 0 then { sc with departamentos := sc.departamentos.insert x.id } else sc
    | none => sc
  sc

/-- One iteration of the `AcessoPrefeitura` loop (a `values_list` of the
non-nullable `prefeitura_id`). -/
def addAcessoPrefeituraRow (sc : Scope) (x : AcessoPrefeituraRow) : Scope :=
  { sc with prefeituras := sc.prefeituras.insert x.prefeitura.id }

/-- One iteration of the `AcessoSecretaria` loop: the secretaria id is added
unconditionally; its (non-nullable) prefeitura id is added when truthy. -/
def addAcessoSecretariaRow (sc : Scope) (x : AcessoSecretariaRow) : Scope :=
  let sc := { sc with secretarias := sc.secretarias.insert x.secretaria.id }
  if x.secretaria.prefeitura.id != 0 then
    { sc with prefeituras := sc.prefeituras.insert x.secretaria.prefeitura.id }
  else sc

/-- One iteration of the `AcessoEscola` loop: the escola id, then (when the
escola's secretaria id is truthy) the secretaria id and its prefeitura id. -/
def addAcessoEscolaRow (sc : Scope) (x : AcessoEscolaRow) : Scope :=
  let sc := { sc with escolas := sc.escolas.insert x.escola.id }
  match x.escola.secretaria with
  | some sec =>
    if sec.id != 0 then
      let sc := { sc with secretarias := sc.secretarias.insert sec.id }
      if sec.prefeitura.id != 0 then
        { sc with prefeituras := sc.prefeituras.insert sec.prefeitura.id }
      else sc
    else sc
  | none => sc

/-- Self-scope: the chain of the user's own employee record (`if f and
f.setor_id:`). -/
def addFuncionarioChain (sc : Scope) (f : Funcionario) : Scope :=
  if f.setor.id != 0 then
    let sc := { sc with setores := sc.setores.insert f.setor.id }
    let chain := resolve_chain_from_setor f.setor
    let sc := match chain.1 with
      | some sec => if sec.id != 0 then { sc with secretarias := sc.secretarias.insert sec.id } else sc
      | none => sc
    match chain.2 with
    | some pref => if pref.id != 0 then { sc with prefeituras := sc.prefeituras.insert pref.id } else sc
    | none => sc
  else sc

/-- `user_scope` from permissions.py: admin sentinel, then the accumulation
loops in source order (UserScope, AcessoPrefeitura, AcessoSecretaria,
AcessoSetor, AcessoEscola — the `AcessoOrgao` block is compiled out since
`HAS_ACESSO_ORGAO` is false — and finally the employee self-scope).
The `AcessoSetor` loop contributes nothing: its
`select_related("setor__orgao__secretaria__prefeitura", ...,
"setor__prefeitura")` names fields this `Setor` does not have, Django
raises `FieldError` before the first row, and the blanket
`except Exception: pass` swallows it — so `db.acessosSetor` is never
read. -/
def user_scope (db : DB) (u : User) : Scope :=
  if !is_auth u then emptyScope
  else if user_is_admin u then { emptyScope with all := true }
  else
    let sc := (db.scopes.filter (fun s => s.userId == u.id)).foldl addUserScopeRow emptyScope
    let sc := (db.acessosPrefeitura.filter (fun x => x.userId == u.id)).foldl addAcessoPrefeituraRow sc
    let sc := (db.acessosSecretaria.filter (fun x => x.userId == u.id)).foldl addAcessoSecretariaRow sc
    -- AcessoSetor loop: dead (swallowed FieldError, see the doc comment)
    let sc := (db.acessosEscola.filter (fun x => x.userId == u.id)).foldl addAcessoEscolaRow sc
    match userFuncionario db u with
    | some f => addFuncionarioChain sc f
    | none => sc

/-- The single kind of exception the engine raises: Django's `FieldError`,
raised when a query names a field the model does not have. -/
inductive FieldError where
  | fieldError
  deriving DecidableEq, Repr

instance {ε α : Type} [DecidableEq ε] [DecidableEq α] :
    DecidableEq (Except ε α) := fun a b =>
  match a, b with
  | .error e, .error f =>
    if h : e = f then isTrue (h ▸ rfl)
    else isFalse (fun hc => h (by cases hc; rfl))
  | .ok x, .ok y =>
    if h : x = y then isTrue (h ▸ rfl)
    else isFalse (fun hc => h (by cases hc; rfl))
  | .error _, .ok _ => isFalse (fun hc => Except.noConfusion hc)
  | .ok _, .error _ => isFalse (fun hc => Except.noConfusion hc)

/-- `_q_setor_scope` + `filter_setores_by_scope`: the admin sentinel
short-circuits to the input queryset; otherwise the source runs
`qs.filter(_q_setor_scope(s)).distinct()`, and `_q_setor_scope` contains
the lookups `orgao_id__in`, `orgao__secretaria_id__in`,
`prefeitura_id__in` and `orgao__secretaria__prefeitura_id__in` — `Setor`
has no `orgao` field and no stored `prefeitura` column, so Django rejects
the lookup at `.filter(...)` with a `FieldError`, whatever the scope sets
contain, and nothing catches it. -/
def filter_setores_by_scope (db : DB) (qs : List Setor) (u : User) :
    Except FieldError (List Setor) :=
  let s := user_scope db u
  if s.all then .ok qs
  else .error .fieldError

/-- `filter_funcionarios_by_scope`: same shape; the non-admin condition
contains `setor__orgao_id__in`, `setor__orgao__secretaria_id__in`,
`setor__prefeitura_id__in` and `setor__orgao__secretaria__prefeitura_id__in`
lookups through fields `Setor` does not have, so `.filter(...)` raises
`FieldError` for every non-admin caller. -/
def filter_funcionarios_by_scope (db : DB) (qs : List Funcionario) (u : User) :
    Except FieldError (List Funcionario) :=
  let s := user_scope db u
  if s.all then .ok qs
  else .error .fieldError

/-- `filter_folhas_by_scope`: same broken lookups through
`funcionario__setor__orgao...` / `funcionario__setor__prefeitura`. -/
def filter_folhas_by_scope (db : DB) (qs : List FolhaFrequencia) (u : User) :
    Except FieldError (List FolhaFrequencia) :=
  let s := user_scope db u
  if s.all then .ok qs
  else .error .fieldError

/-- `filter_horarios_by_scope`: same broken lookups through
`funcionario__setor__orgao...` / `funcionario__setor__prefeitura`. -/
def filter_horarios_by_scope (db : DB) (qs : List HorarioTrabalho) (u : User) :
    Except FieldError (List HorarioTrabalho) :=
  let s := user_scope db u
  if s.all then .ok qs
  else .error .fieldError

/-- `assert_can_access_funcionario`: admin short-circuits to true; every
other caller runs the broken employee filter on the singleton queryset and
the `FieldError` propagates uncaught (`.exists()` is never reached). -/
def assert_can_access_funcionario (db : DB) (u : User) (funcionario : Funcionario) :
    Except FieldError Bool :=
  if user_is_admin u then .ok true
  else
    (filter_funcionarios_by_scope db
        (db.funcionarios.filter (fun x => x.id == funcionario.id)) u).map
      (fun l => !l.isEmpty)

/-- `DEFAULT_FUNCOES_GERENCIA`: the hardcoded privileged job-title set. -/
def DEFAULT_FUNCOES_GERENCIA : List String :=
  ["diretor", "diretor(a)", "coordenador", "coordenador(a)",
   "secretario", "secretário", "secretario(a)", "secretário(a)", "secretaria",
   "gestor", "gestor(a)", "admin", "administrador"]

/-- `has_funcao_permission`: unauthenticated users get false and admins get
true up front; every other caller dies in `assert_can_access_funcionario`
(the `FieldError` of the employee filter propagates), so the role-policy
body below the scope step — translated faithfully from the source — is
unreachable in this deployment.  Within the (dead) body: since
`HAS_FUNCAO_PERMISSAO` is true, a non-empty normalized target job title
consults the `FuncaoPermissao` table, the secretaria for the scope
restriction being `secretaria_resolvida` (absent on this `Setor`, always
`None`), then `secretaria_oficial or secretaria` (the `orgao` step never
fires); an empty title falls through to the acting user's own job title
against `DEFAULT_FUNCOES_GERENCIA` for GERENCIA, or plain true for
LEITURA. -/
def has_funcao_permission (db : DB) (u : User) (funcionario : Funcionario)
    (required_nivel : String) : Except FieldError Bool :=
  if !is_auth u then .ok false
  else if user_is_admin u then .ok true
  else
    match assert_can_access_funcionario db u funcionario with
    | .error e => .error e
    | .ok canSee =>
      if !canSee then .ok false
      else
        let req := nivel_to_int required_nivel
        let funcao_alvo := norm_str funcionario.funcao
        if funcao_alvo != "" then
          let setor := funcionario.setor
          let sec : Option Secretaria :=
            match setor.secretaria_oficial with
            | some s => some s
            | none => setor.secretaria
          let qs := db.funcaoPermissoes.filter (fun p =>
            p.userId == u.id && pyLower p.nome_funcao == funcao_alvo &&
            ((p.secretaria.isNone && p.setor.isNone)
              || p.secretaria.map (·.id) == sec.map (·.id)
              || p.setor.map (·.id) == some setor.id))
          .ok (qs.any (fun p => nivel_to_int p.nivel ≥ req))
        else
          if req ≥ 1 then
            .ok (decide (norm_str (match userFuncionario db u with
                          | some f => f.funcao
                          | none => "") ∈ DEFAULT_FUNCOES_GERENCIA))
          else .ok true

/-- `_secretaria_do_setor`: `secretaria_resolvida` is absent on this `Setor`
model (always `None`), so the order is `secretaria_oficial`, then the legacy
direct `secretaria`; the `orgao` step never fires. -/
def secretaria_do_setor : Option Setor → Option Secretaria
  | none => none
  | some s =>
    match s.secretaria_oficial with
    | some sec => some sec
    | none => s.secretaria

/-- `_has_leitura_em_secretaria`. -/
def has_leitura_em_secretaria (db : DB) (u : User) (secretaria : Option Secretaria) : Bool :=
  match secretaria with
  | none => false
  | some sec =>
    if !is_auth u then false
    else if user_is_admin u then true
    else if db.scopes.any (fun s => s.userId == u.id &&
        (s.secretaria.map (·.id) == some sec.id
          || s.prefeitura.map (·.id) == some sec.prefeitura.id)) then true
    else db.acessosSecretaria.any (fun a => a.userId == u.id && a.secretaria.id == sec.id)

/-- `_has_gerencia_em_secretaria`. -/
def has_gerencia_em_secretaria (db : DB) (u : User) (secretaria : Option Secretaria) : Bool :=
  match secretaria with
  | none => false
  | some sec =>
    if !is_auth u then false
    else if user_is_admin u then true
    else if db.scopes.any (fun s => s.userId == u.id &&
        (s.secretaria.map (·.id) == some sec.id && s.nivel == "GERENCIA")) then true
    else if db.scopes.any (fun s => s.userId == u.id &&
        (s.prefeitura.map (·.id) == some sec.prefeitura.id && s.nivel == "GERENCIA")) then true
    else db.acessosSecretaria.any (fun a => a.userId == u.id &&
        (a.secretaria.id == sec.id && a.nivel == "GERENCIA"))

/-- `_has_leitura_em_setor`. -/
def has_leitura_em_setor (db : DB) (u : User) (setor : Option Setor) : Bool :=
  match setor with
  | none => false
  | some st =>
    if user_is_admin u then true
    else if db.scopes.any (fun s => s.userId == u.id &&
        s.setor.map (·.id) == some st.id) then true
    else if (match secretaria_do_setor (some st) with
      | some sec => db.scopes.any (fun s => s.userId == u.id &&
          (s.secretaria.map (·.id) == some sec.id
            || s.prefeitura.map (·.id) == some sec.prefeitura.id))
      | none => false : Bool) then true
    else
      match secretaria_do_setor (some st) with
      | some sec => has_leitura_em_secretaria db u (some sec)
      | none => false

/-- `_has_gerencia_em_setor`. -/
def has_gerencia_em_setor (db : DB) (u : User) (setor : Option Setor) : Bool :=
  match setor with
  | none => false
  | some st =>
    if user_is_admin u then true
    else if db.scopes.any (fun s => s.userId == u.id &&
        (s.setor.map (·.id) == some st.id && s.nivel == "GERENCIA")) then true
    else has_gerencia_em_secretaria db u (secretaria_do_setor (some st))

/-- `_has_leitura_em_funcionario` (the employee's sector FK is non-nullable,
so `getattr(funcionario, "setor", None)` is always the sector). -/
def has_leitura_em_funcionario (db : DB) (u : User) (funcionario : Funcionario) : Bool :=
  has_leitura_em_setor db u (some funcionario.setor)

/-- `_has_gerencia_em_funcionario`: sector-level MANAGE first (a pure
check), then the job-title policy for the target employee — whose
`FieldError` propagates for non-admin users. -/
def has_gerencia_em_funcionario (db : DB) (u : User) (funcionario : Funcionario) :
    Except FieldError Bool :=
  if !has_gerencia_em_setor db u (some funcionario.setor) then .ok false
  else has_funcao_permission db u funcionario GERENCIA

/-- One entry of `FEATURE_RULES`: required level and the superuser-only
flag (`rule.get("superuser_only")` is false when the key is missing). -/
structure FeatureRule where
  nivel : String
  superuser_only : Bool
  deriving DecidableEq, Repr

/-- `FEATURE_RULES`: the closed feature catalog. -/
def FEATURE_RULES : List (String × FeatureRule) :=
  [("VER_PAINEL",            ⟨LEITURA, false⟩),
   ("VER_FUNCIONARIOS",      ⟨LEITURA, false⟩),
   ("CAD_FUNCIONARIO",       ⟨GERENCIA, false⟩),
   ("EDIT_FUNCIONARIO",      ⟨GERENCIA, false⟩),
   ("EXCLUIR_FUNCIONARIO",   ⟨GERENCIA, false⟩),
   ("CAD_HORARIO",           ⟨GERENCIA, false⟩),
   ("EDIT_HORARIO",          ⟨GERENCIA, false⟩),
   ("VER_FERIADOS",          ⟨LEITURA, false⟩),
   ("CAD_FERIADO",           ⟨GERENCIA, false⟩),
   ("EDIT_FERIADO",          ⟨GERENCIA, false⟩),
   ("EXCLUIR_FERIADO",       ⟨GERENCIA, false⟩),
   ("VER_FOLHAS",            ⟨LEITURA, false⟩),
   ("VER_FOLHA",             ⟨LEITURA, false⟩),
   ("GERAR_FOLHA",           ⟨GERENCIA, false⟩),
   ("GERAR_FOLHAS_LOTE",     ⟨GERENCIA, false⟩),
   ("GERAR_FOLHAS_MULTI",    ⟨GERENCIA, false⟩),
   ("EXCLUIR_FOLHA",         ⟨GERENCIA, false⟩),
   ("CAPA_LIVRO",            ⟨LEITURA, false⟩),
   ("VER_FICHA",             ⟨LEITURA, false⟩),
   ("REL_PERSONALIZADO",     ⟨LEITURA, false⟩),
   ("REL_PROFESSORES",       ⟨LEITURA, false⟩),
   ("RELATORIOS",            ⟨LEITURA, false⟩),
   ("IMPORTAR_FUNCIONARIOS", ⟨GERENCIA, false⟩),
   ("IMPORTAR_HORARIOS",     ⟨GERENCIA, false⟩),
   ("ACESSOS_CONCEDER",      ⟨GERENCIA, true⟩),
   ("ACESSOS_REVOGAR",       ⟨GERENCIA, true⟩),
   ("SCOPES_MANAGER",        ⟨GERENCIA, true⟩),
   ("SCOPES_DEBUG",          ⟨GERENCIA, true⟩)]

/-- `FEATURE_RULES.get(str(feature).upper())`. -/
def featureRule (feature : String) : Option FeatureRule :=
  (FEATURE_RULES.find? (fun p => p.fst == pyUpper feature)).map (·.snd)

/-- The optional target (`alvo`) of `user_can_feature`, one constructor per
`isinstance` branch; `outro` stands for an object of any other type
(including the legacy `Orgao`, absent from this repository). -/
inductive Alvo where
  | funcionario (f : Funcionario)
  | setor (s : Setor)
  | secretaria (s : Secretaria)
  | prefeitura (p : Prefeitura)
  | escola (e : Escola)
  | departamento (d : Departamento)
  | outro
  deriving DecidableEq, Repr

/-- `user_can_feature`.  All target dispatches are pure except the
MANAGE-on-employee branch, whose `has_funcao_permission` call can raise;
the result is therefore `Except FieldError Bool`, with `.ok` wrapping
every pure branch.  The two legacy branches (`Escola`, `Departamento`)
recurse in the source as `user_can_feature(user, feature, secretaria)`;
the re-entered call performs the same `_is_auth`, rule lookup and
superuser checks with identical arguments — all already known to pass —
and then takes the `Secretaria` dispatch branch, so the recursion is
inlined to that branch here (keeping the definition structural). -/
def user_can_feature (db : DB) (u : User) (feature : String) (alvo : Option Alvo) :
    Except FieldError Bool :=
  if !is_auth u then .ok false
  else
    match featureRule feature with
    | none => .ok false
    | some rule =>
      if rule.superuser_only && !u.is_superuser then .ok false
      else
        let nivel := rule.nivel
        match alvo with
        | none =>
          if user_is_admin u then .ok true
          else if nivel == GERENCIA then
            -- any GERENCIA scope anywhere (the AcessoOrgao block is
            -- compiled out: HAS_ACESSO_ORGAO is false); these queries
            -- name only existing fields and succeed
            .ok (db.scopes.any (fun s => s.userId == u.id && s.nivel == "GERENCIA")
              || db.acessosSecretaria.any (fun a => a.userId == u.id && a.nivel == "GERENCIA")
              || db.acessosPrefeitura.any (fun a => a.userId == u.id && a.nivel == "GERENCIA"))
          else
            let sc := user_scope db u
            .ok (!sc.prefeituras.isEmpty || !sc.secretarias.isEmpty || !sc.orgaos.isEmpty
              || !sc.setores.isEmpty || !sc.escolas.isEmpty || !sc.departamentos.isEmpty)
        | some (.funcionario f) =>
          if nivel == GERENCIA then has_gerencia_em_funcionario db u f
          else .ok (has_leitura_em_funcionario db u f)
        | some (.setor s) =>
          if nivel == GERENCIA then .ok (has_gerencia_em_setor db u (some s))
          else .ok (has_leitura_em_setor db u (some s))
        | some (.secretaria s) =>
          if nivel == GERENCIA then .ok (has_gerencia_em_secretaria db u (some s))
          else .ok (has_leitura_em_secretaria db u (some s))
        | some (.prefeitura p) =>
          if user_is_admin u then .ok true
          else if nivel == GERENCIA then
            .ok (db.scopes.any (fun s => s.userId == u.id &&
              (s.prefeitura.map (·.id) == some p.id && s.nivel == "GERENCIA")))
          else
            .ok (db.scopes.any (fun s => s.userId == u.id && s.prefeitura.map (·.id) == some p.id))
        | some (.escola e) =>
          -- source: recurse on the escola's secretaria when present
          match e.secretaria with
          | some sec =>
            if nivel == GERENCIA then .ok (has_gerencia_em_secretaria db u (some sec))
            else .ok (has_leitura_em_secretaria db u (some sec))
          | none => .ok (user_is_admin u)
        | some (.departamento d) =>
          match d.secretaria with
          | some sec =>
            -- source: recurse on the departamento's secretaria
            if nivel == GERENCIA then .ok (has_gerencia_em_secretaria db u (some sec))
            else .ok (has_leitura_em_secretaria db u (some sec))
          | none =>
            match d.prefeitura with
            | some _ => if nivel == GERENCIA then .ok (user_is_admin u) else .ok true
            | none => .ok false
        | some .outro => .ok false

/-- Pointwise relation between scope values along the accumulation of
`user_scope`: the admin sentinel is untouched and the three ID sets the
propagation claims track only grow. -/
def Scope.Sub (a b : Scope) : Prop :=
  a.all = b.all ∧ a.setores ⊆ b.setores ∧ a.secretarias ⊆ b.secretarias
    ∧ a.prefeituras ⊆ b.prefeituras

lemma Scope.Sub.refl (a : Scope) : Scope.Sub a a :=
  ⟨rfl, fun _ h => h, fun _ h => h, fun _ h => h⟩

lemma Scope.Sub.trans {a b c : Scope} (h1 : Scope.Sub a b) (h2 : Scope.Sub b c) :
    Scope.Sub a c :=
  ⟨h1.1.trans h2.1, fun _ hx => h2.2.1 (h1.2.1 hx),
   fun _ hx => h2.2.2.1 (h1.2.2.1 hx), fun _ hx => h2.2.2.2 (h1.2.2.2 hx)⟩

lemma addUserScopeRow_sub (sc : Scope) (s : UserScopeRow) :
    Scope.Sub sc (addUserScopeRow sc s) := by
  unfold addUserScopeRow
  dsimp only
  repeat' split
  all_goals exact ⟨rfl,
    by first | exact fun _ h => h | exact List.subset_insert _ _,
    by first | exact fun _ h => h | exact List.subset_insert _ _,
    by first | exact fun _ h => h | exact List.subset_insert _ _⟩

lemma addAcessoPrefeituraRow_sub (sc : Scope) (x : AcessoPrefeituraRow) :
    Scope.Sub sc (addAcessoPrefeituraRow sc x) := by
  unfold addAcessoPrefeituraRow
  exact ⟨rfl, fun _ h => h, fun _ h => h, List.subset_insert _ _⟩

lemma addAcessoSecretariaRow_sub (sc : Scope) (x : AcessoSecretariaRow) :
    Scope.Sub sc (addAcessoSecretariaRow sc x) := by
  unfold addAcessoSecretariaRow
  dsimp only
  repeat' split
  all_goals exact ⟨rfl,
    by first | exact fun _ h => h | exact List.subset_insert _ _,
    by first | exact fun _ h => h | exact List.subset_insert _ _,
    by first | exact fun _ h => h | exact List.subset_insert _ _⟩

lemma addAcessoEscolaRow_sub (sc : Scope) (x : AcessoEscolaRow) :
    Scope.Sub sc (addAcessoEscolaRow sc x) := by
  unfold addAcessoEscolaRow
  dsimp only
  repeat' split
  all_goals exact ⟨rfl,
    by first | exact fun _ h => h | exact List.subset_insert _ _,
    by first | exact fun _ h => h | exact List.subset_insert _ _,
    by first | exact fun _ h => h | exact List.subset_insert _ _⟩

lemma addFuncionarioChain_sub (sc : Scope) (f : Funcionario) :
    Scope.Sub sc (addFuncionarioChain sc f) := by
  unfold addFuncionarioChain
  dsimp only
  repeat' split
  all_goals exact ⟨rfl,
    by first | exact fun _ h => h | exact List.subset_insert _ _,
    by first | exact fun _ h => h | exact List.subset_insert _ _,
    by first | exact fun _ h => h | exact List.subset_insert _ _⟩

lemma foldl_sub {α : Type} {step : Scope → α → Scope}
    (hstep : ∀ sc a, Scope.Sub sc (step sc a)) :
    ∀ (l : List α) (sc : Scope), Scope.Sub sc (l.foldl step sc) := by
  intro l
  induction l with
  | nil => exact fun sc => Scope.Sub.refl sc
  | cons b t ih => exact fun sc => Scope.Sub.trans (hstep sc b) (ih (step sc b))

lemma foldl_sub_of_mem {α : Type} {step : Scope → α → Scope}
    (hstep : ∀ sc a, Scope.Sub sc (step sc a)) {l : List α} {a : α} (ha : a ∈ l) :
    ∀ sc : Scope, ∃ sc', Scope.Sub (step sc' a) (l.foldl step sc) := by
  induction l with
  | nil => cases ha
  | cons b t ih =>
    intro sc
    rcases List.mem_cons.mp ha with h | h
    · exact ⟨sc, h ▸ foldl_sub hstep t (step sc b)⟩
    · exact ih h (step sc b)

lemma addUserScopeRow_mem_setores (sc : Scope) (s : UserScopeRow)
    {st : Setor} (h : s.setor = some st) (hid : st.id ≠ 0) :
    st.id ∈ (addUserScopeRow sc s).setores := by
  have hid' : (st.id != 0) = true := by simpa using hid
  unfold addUserScopeRow
  dsimp only
  rw [h]
  simp only [hid', if_true]
  repeat' split
  all_goals exact List.mem_insert_self _ _

lemma addFuncionarioChain_mem_setores (sc : Scope) (f : Funcionario)
    (hid : f.setor.id ≠ 0) :
    f.setor.id ∈ (addFuncionarioChain sc f).setores := by
  have hid' : (f.setor.id != 0) = true := by simpa using hid
  unfold addFuncionarioChain
  dsimp only
  simp only [hid', if_true]
  repeat' split
  all_goals exact List.mem_insert_self _ _

lemma addFuncionarioChain_mem_secretarias (sc : Scope) (f : Funcionario)
    (hid : f.setor.id ≠ 0) {sec : Secretaria}
    (h : (resolve_chain_from_setor f.setor).1 = some sec) (hsid : sec.id ≠ 0) :
    sec.id ∈ (addFuncionarioChain sc f).secretarias := by
  have hid' : (f.setor.id != 0) = true := by simpa using hid
  have hsid' : (sec.id != 0) = true := by simpa using hsid
  unfold addFuncionarioChain
  dsimp only
  simp only [hid', if_true]
  rw [h]
  simp only [hsid', if_true]
  repeat' split
  all_goals exact List.mem_insert_self _ _

lemma addFuncionarioChain_mem_prefeituras (sc : Scope) (f : Funcionario)
    (hid : f.setor.id ≠ 0) {pref : Prefeitura}
    (h : (resolve_chain_from_setor f.setor).2 = some pref) (hpid : pref.id ≠ 0) :
    pref.id ∈ (addFuncionarioChain sc f).prefeituras := by
  have hid' : (f.setor.id != 0) = true := by simpa using hid
  have hpid' : (pref.id != 0) = true := by simpa using hpid
  unfold addFuncionarioChain
  dsimp only
  simp only [hid', if_true]
  rw [h]
  simp only [hpid', if_true]
  repeat' split
  all_goals exact List.mem_insert_self _ _

lemma user_scope_nonadmin (db : DB) (u : User)
    (h1 : is_auth u = true) (h2 : user_is_admin u = false) :
    user_scope db u =
      (let sc := (db.scopes.filter (fun s => s.userId == u.id)).foldl addUserScopeRow emptyScope
       let sc := (db.acessosPrefeitura.filter (fun x => x.userId == u.id)).foldl addAcessoPrefeituraRow sc
       let sc := (db.acessosSecretaria.filter (fun x => x.userId == u.id)).foldl addAcessoSecretariaRow sc
       let sc := (db.acessosEscola.filter (fun x => x.userId == u.id)).foldl addAcessoEscolaRow sc
       match userFuncionario db u with
       | some f => addFuncionarioChain sc f
       | none => sc) := by
  simp only [user_scope, h1, h2, Bool.not_true, Bool.false_eq_true, if_false]

lemma sub_user_scope_after_scopes (db : DB) (u : User)
    (h1 : is_auth u = true) (h2 : user_is_admin u = false)
    {s : UserScopeRow} (hs : s ∈ db.scopes) (hu : s.userId = u.id) :
    ∃ sc', Scope.Sub (addUserScopeRow sc' s) (user_scope db u) := by
  rw [user_scope_nonadmin db u h1 h2]
  dsimp only
  have hsf : s ∈ db.scopes.filter (fun y => y.userId == u.id) :=
    List.mem_filter.mpr ⟨hs, by simpa using hu⟩
  obtain ⟨sc', hsub⟩ := foldl_sub_of_mem addUserScopeRow_sub hsf emptyScope
  refine ⟨sc', Scope.Sub.trans hsub ?_⟩
  refine Scope.Sub.trans
    (foldl_sub addAcessoPrefeituraRow_sub (db.acessosPrefeitura.filter (fun y => y.userId == u.id)) _) ?_
  refine Scope.Sub.trans
    (foldl_sub addAcessoSecretariaRow_sub (db.acessosSecretaria.filter (fun y => y.userId == u.id)) _) ?_
  refine Scope.Sub.trans
    (foldl_sub addAcessoEscolaRow_sub (db.acessosEscola.filter (fun y => y.userId == u.id)) _) ?_
  cases hf : userFuncionario db u with
  | none => exact Scope.Sub.refl _
  | some f => exact addFuncionarioChain_sub _ f

lemma user_scope_selfscope (db : DB) (u : User)
    (h1 : is_auth u = true) (h2 : user_is_admin u = false)
    {f : Funcionario} (hf : userFuncionario db u = some f) :
    user_scope db u = addFuncionarioChain
      ((db.acessosEscola.filter (fun x => x.userId == u.id)).foldl addAcessoEscolaRow
        ((db.acessosSecretaria.filter (fun x => x.userId == u.id)).foldl addAcessoSecretariaRow
          ((db.acessosPrefeitura.filter (fun x => x.userId == u.id)).foldl addAcessoPrefeituraRow
            ((db.scopes.filter (fun s => s.userId == u.id)).foldl addUserScopeRow emptyScope)))) f := by
  rw [user_scope_nonadmin db u h1 h2]
  dsimp only
  rw [hf]
lemma user_scope_all_false (db : DB) (u : User) (h2 : user_is_admin u = false) :
    (user_scope db u).all = false := by
  cases hauth : is_auth u with
  | false => simp [user_scope, hauth, emptyScope]
  | true =>
    rw [user_scope_nonadmin db u hauth h2]
    dsimp only
    have hsub : Scope.Sub emptyScope
        ((db.acessosEscola.filter (fun x => x.userId == u.id)).foldl addAcessoEscolaRow
          ((db.acessosSecretaria.filter (fun x => x.userId == u.id)).foldl addAcessoSecretariaRow
            ((db.acessosPrefeitura.filter (fun x => x.userId == u.id)).foldl addAcessoPrefeituraRow
              ((db.scopes.filter (fun s => s.userId == u.id)).foldl addUserScopeRow emptyScope)))) := by
      refine Scope.Sub.trans
        (foldl_sub addUserScopeRow_sub (db.scopes.filter (fun s => s.userId == u.id)) emptyScope) ?_
      refine Scope.Sub.trans
        (foldl_sub addAcessoPrefeituraRow_sub (db.acessosPrefeitura.filter (fun x => x.userId == u.id)) _) ?_
      refine Scope.Sub.trans
        (foldl_sub addAcessoSecretariaRow_sub (db.acessosSecretaria.filter (fun x => x.userId == u.id)) _) ?_
      exact foldl_sub addAcessoEscolaRow_sub (db.acessosEscola.filter (fun x => x.userId == u.id)) _
    cases hfm : userFuncionario db u with
    | none =>
      rw [← hsub.1]
      rfl
    | some f =>
      have h' := Scope.Sub.trans hsub (addFuncionarioChain_sub _ f)
      rw [← h'.1]
      rfl

lemma filter_setores_error (db : DB) (qs : List Setor) (u : User)
    (h2 : user_is_admin u = false) :
    filter_setores_by_scope db qs u = .error .fieldError := by
  simp [filter_setores_by_scope, user_scope_all_false db u h2]

lemma filter_funcionarios_error (db : DB) (qs : List Funcionario) (u : User)
    (h2 : user_is_admin u = false) :
    filter_funcionarios_by_scope db qs u = .error .fieldError := by
  simp [filter_funcionarios_by_scope, user_scope_all_false db u h2]

lemma filter_folhas_error (db : DB) (qs : List FolhaFrequencia) (u : User)
    (h2 : user_is_admin u = false) :
    filter_folhas_by_scope db qs u = .error .fieldError := by
  simp [filter_folhas_by_scope, user_scope_all_false db u h2]

lemma filter_horarios_error (db : DB) (qs : List HorarioTrabalho) (u : User)
    (h2 : user_is_admin u = false) :
    filter_horarios_by_scope db qs u = .error .fieldError := by
  simp [filter_horarios_by_scope, user_scope_all_false db u h2]

lemma assert_can_access_funcionario_error (db : DB) (u : User) (f : Funcionario)
    (h2 : user_is_admin u = false) :
    assert_can_access_funcionario db u f = .error .fieldError := by
  unfold assert_can_access_funcionario
  rw [filter_funcionarios_error db _ u h2]
  simp [h2, Except.map]

lemma has_funcao_permission_error (db : DB) (u : User) (f : Funcionario) (r : String)
    (h1 : is_auth u = true) (h2 : user_is_admin u = false) :
    has_funcao_permission db u f r = .error .fieldError := by
  unfold has_funcao_permission
  rw [assert_can_access_funcionario_error db u f h2]
  simp [h1, h2]

lemma any_impl {α : Type} {l : List α} {p q : α → Bool}
    (h : ∀ a, p a = true → q a = true) (hl : l.any p = true) : l.any q = true := by
  rcases List.any_eq_true.mp hl with ⟨a, ha, hpa⟩
  exact List.any_eq_true.mpr ⟨a, ha, h a hpa⟩

lemma any_false_of_forall {α : Type} {l : List α} {p : α → Bool}
    (h : ∀ a ∈ l, p a = false) : l.any p = false := by
  by_contra hc
  rcases List.any_eq_true.mp (Bool.of_not_eq_false hc) with ⟨a, ha, hpa⟩
  rw [h a ha] at hpa
  cases hpa

-- Admin short-circuits of the point checks.
lemma has_leitura_em_secretaria_admin (db : DB) (u : User) (sec : Secretaria)
    (h : user_is_admin u = true) :
    has_leitura_em_secretaria db u (some sec) = true := by
  have hauth : is_auth u = true := by
    revert h; unfold user_is_admin; cases hu : is_auth u <;> simp
  simp [has_leitura_em_secretaria, h, hauth]

lemma has_gerencia_em_secretaria_admin (db : DB) (u : User) (sec : Secretaria)
    (h : user_is_admin u = true) :
    has_gerencia_em_secretaria db u (some sec) = true := by
  have hauth : is_auth u = true := by
    revert h; unfold user_is_admin; cases hu : is_auth u <;> simp
  simp [has_gerencia_em_secretaria, h, hauth]

lemma has_leitura_em_setor_admin (db : DB) (u : User) (st : Setor)
    (h : user_is_admin u = true) :
    has_leitura_em_setor db u (some st) = true := by
  simp [has_leitura_em_setor, h]

lemma has_gerencia_em_setor_admin (db : DB) (u : User) (st : Setor)
    (h : user_is_admin u = true) :
    has_gerencia_em_setor db u (some st) = true := by
  simp [has_gerencia_em_setor, h]

lemma has_funcao_permission_admin (db : DB) (u : User) (f : Funcionario) (r : String)
    (h : user_is_admin u = true) :
    has_funcao_permission db u f r = .ok true := by
  have hauth : is_auth u = true := by
    revert h; unfold user_is_admin; cases hu : is_auth u <;> simp
  simp [has_funcao_permission, h, hauth]

lemma has_gerencia_em_funcionario_admin (db : DB) (u : User) (f : Funcionario)
    (h : user_is_admin u = true) :
    has_gerencia_em_funcionario db u f = .ok true := by
  simp [has_gerencia_em_funcionario, has_gerencia_em_setor_admin db u f.setor h,
        has_funcao_permission_admin db u f GERENCIA h]
lemma filter_user_eq_nil {α : Type} (l : List α) (uid : Nat) (f : α → Nat)
    (h : ∀ a ∈ l, f a ≠ uid) : l.filter (fun a => f a == uid) = [] :=
  List.filter_eq_nil_iff.mpr (fun a ha => by simp [h a ha])

/-- `user_scope` reads only the `UserScope`, `AcessoPrefeitura`,
`AcessoSecretaria` and `AcessoEscola` tables plus the linked employee
(`AcessoSetor` rows never survive their loop): when none of those rows
belong to the user, the scope is entirely empty. -/
lemma user_scope_empty_of_no_rows (db : DB) (u : User)
    (h1 : is_auth u = true) (h2 : user_is_admin u = false)
    (hsc : ∀ s ∈ db.scopes, s.userId ≠ u.id)
    (hpr : ∀ x ∈ db.acessosPrefeitura, x.userId ≠ u.id)
    (hse : ∀ x ∈ db.acessosSecretaria, x.userId ≠ u.id)
    (hes : ∀ x ∈ db.acessosEscola, x.userId ≠ u.id)
    (hfu : ∀ f ∈ db.funcionarios, f.userId ≠ some u.id) :
    user_scope db u = emptyScope := by
  rw [user_scope_nonadmin db u h1 h2]
  dsimp only
  rw [filter_user_eq_nil db.scopes u.id (fun s => s.userId) hsc,
      filter_user_eq_nil db.acessosPrefeitura u.id (fun x => x.userId) hpr,
      filter_user_eq_nil db.acessosSecretaria u.id (fun x => x.userId) hse,
      filter_user_eq_nil db.acessosEscola u.id (fun x => x.userId) hes]
  have hfn : userFuncionario db u = none :=
    List.find?_eq_none.mpr (fun f hf => by simp [hfu f hf])
  rw [hfn]
  rfl

lemma scopes_any_false (db : DB) (u : User) (p : UserScopeRow → Bool)
    (h : ∀ s ∈ db.scopes, s.userId ≠ u.id) :
    db.scopes.any (fun s => s.userId == u.id && p s) = false :=
  any_false_of_forall (fun s hs => by simp [h s hs])

lemma acessosSecretaria_any_false (db : DB) (u : User) (p : AcessoSecretariaRow → Bool)
    (h : ∀ a ∈ db.acessosSecretaria, a.userId ≠ u.id) :
    db.acessosSecretaria.any (fun a => a.userId == u.id && p a) = false :=
  any_false_of_forall (fun a ha => by simp [h a ha])

lemma has_gerencia_em_secretaria_false (db : DB) (u : User) (osec : Option Secretaria)
    (h2 : user_is_admin u = false)
    (hsc : ∀ s ∈ db.scopes, s.userId ≠ u.id)
    (hac : ∀ a ∈ db.acessosSecretaria, a.userId ≠ u.id) :
    has_gerencia_em_secretaria db u osec = false := by
  cases osec with
  | none => rfl
  | some sec =>
    unfold has_gerencia_em_secretaria
    cases hauth : is_auth u with
    | false => simp
    | true =>
      simp only [hauth, Bool.not_true, Bool.false_eq_true, if_false, h2]
      rw [scopes_any_false db u _ hsc, scopes_any_false db u _ hsc,
          acessosSecretaria_any_false db u _ hac]
      simp

lemma has_leitura_em_secretaria_false (db : DB) (u : User) (osec : Option Secretaria)
    (h2 : user_is_admin u = false)
    (hsc : ∀ s ∈ db.scopes, s.userId ≠ u.id)
    (hac : ∀ a ∈ db.acessosSecretaria, a.userId ≠ u.id) :
    has_leitura_em_secretaria db u osec = false := by
  cases osec with
  | none => rfl
  | some sec =>
    unfold has_leitura_em_secretaria
    cases hauth : is_auth u with
    | false => simp
    | true =>
      simp only [hauth, Bool.not_true, Bool.false_eq_true, if_false, h2]
      rw [scopes_any_false db u _ hsc]
      have : db.acessosSecretaria.any (fun a => a.userId == u.id && a.secretaria.id == sec.id) = false :=
        acessosSecretaria_any_false db u _ hac
      rw [this]
      simp

lemma has_leitura_em_setor_false (db : DB) (u : User) (ost : Option Setor)
    (h2 : user_is_admin u = false)
    (hsc : ∀ s ∈ db.scopes, s.userId ≠ u.id)
    (hac : ∀ a ∈ db.acessosSecretaria, a.userId ≠ u.id) :
    has_leitura_em_setor db u ost = false := by
  cases ost with
  | none => rfl
  | some st =>
    unfold has_leitura_em_setor
    simp only [h2, Bool.false_eq_true, if_false]
    rw [scopes_any_false db u _ hsc]
    cases hsec : secretaria_do_setor (some st) with
    | none => simp
    | some sec =>
      simp only [hsec]
      rw [scopes_any_false db u _ hsc,
          has_leitura_em_secretaria_false db u (some sec) h2 hsc hac]
      simp

lemma has_gerencia_em_setor_false (db : DB) (u : User) (ost : Option Setor)
    (h2 : user_is_admin u = false)
    (hsc : ∀ s ∈ db.scopes, s.userId ≠ u.id)
    (hac : ∀ a ∈ db.acessosSecretaria, a.userId ≠ u.id) :
    has_gerencia_em_setor db u ost = false := by
  cases ost with
  | none => rfl
  | some st =>
    unfold has_gerencia_em_setor
    simp only [h2, Bool.false_eq_true, if_false]
    rw [scopes_any_false db u _ hsc,
        has_gerencia_em_secretaria_false db u (secretaria_do_setor (some st)) h2 hsc hac]
    simp

lemma leitura_of_gerencia_secretaria (db : DB) (u : User) (osec : Option Secretaria)
    (h : has_gerencia_em_secretaria db u osec = true) :
    has_leitura_em_secretaria db u osec = true := by
  cases osec with
  | none => simp [has_gerencia_em_secretaria] at h
  | some sec =>
    by_cases hadm : user_is_admin u = true
    · exact has_leitura_em_secretaria_admin db u sec hadm
    · have hadm' : user_is_admin u = false := by
        revert hadm; cases user_is_admin u <;> simp
      simp [has_gerencia_em_secretaria, hadm'] at h
      simp [has_leitura_em_secretaria, h.1, hadm']
      rcases h.2 with ⟨x, hx, hu, hs, _⟩ | ⟨x, hx, hu, hp, _⟩ | ⟨x, hx, hu, hs, _⟩
      · exact Or.inl ⟨x, hx, hu, Or.inl hs⟩
      · exact Or.inl ⟨x, hx, hu, Or.inr hp⟩
      · exact Or.inr ⟨x, hx, hu, hs⟩

lemma leitura_of_gerencia_setor (db : DB) (u : User) (ost : Option Setor)
    (h : has_gerencia_em_setor db u ost = true) :
    has_leitura_em_setor db u ost = true := by
  cases ost with
  | none => simp [has_gerencia_em_setor] at h
  | some st =>
    by_cases hadm : user_is_admin u = true
    · exact has_leitura_em_setor_admin db u st hadm
    · have hadm' : user_is_admin u = false := by
        revert hadm; cases user_is_admin u <;> simp
      simp [has_gerencia_em_setor, hadm'] at h
      unfold has_leitura_em_setor
      simp only [hadm', Bool.false_eq_true, if_false]
      rcases h with ⟨x, hx, hu, ⟨a, hsa, hsid⟩, _⟩ | hger
      · have hany : (db.scopes.any fun s =>
            s.userId == u.id && Option.map (fun y => y.id) s.setor == some st.id) = true :=
          List.any_eq_true.mpr ⟨x, hx, by simp [hu, hsa, hsid]⟩
        simp [hany]
      · cases hsec : secretaria_do_setor (some st) with
        | none => rw [hsec] at hger; simp [has_gerencia_em_secretaria] at hger
        | some sec =>
          rw [hsec] at hger
          have hlei := leitura_of_gerencia_secretaria db u (some sec) hger
          simp only [hsec]
          by_cases h1 : (db.scopes.any fun s =>
              s.userId == u.id && Option.map (fun y => y.id) s.setor == some st.id) = true
          · simp [h1]
          · rw [if_neg h1]
            by_cases h2 : (db.scopes.any fun s =>
                s.userId == u.id &&
                  (Option.map (fun y => y.id) s.secretaria == some sec.id ||
                    Option.map (fun y => y.id) s.prefeitura == some sec.prefeitura.id)) = true
            · simp [h2]
            · rw [if_neg h2]
              exact hlei

/-- Claim C7: MANAGE implies READ for the point checks — whenever the
MANAGE-level check on a Secretaria (`_has_gerencia_em_secretaria`) or on a
Setor (`_has_gerencia_em_setor`) returns true, the corresponding READ-level
check (`_has_leitura_em_secretaria` / `_has_leitura_em_setor`) also returns
true, for every user, grant store and target: every MANAGE grant also
satisfies READ. -/
theorem claim_C7 :
    (∀ (db : DB) (u : User) (osec : Option Secretaria),
        has_gerencia_em_secretaria db u osec = true →
        has_leitura_em_secretaria db u osec = true)
    ∧ (∀ (db : DB) (u : User) (ost : Option Setor),
        has_gerencia_em_setor db u ost = true →
        has_leitura_em_setor db u ost = true) :=
  ⟨leitura_of_gerencia_secretaria, leitura_of_gerencia_setor⟩

/-- Witness for C7 at a concrete input: a unified GERENCIA grant on a
secretaria (resp. on a sector) passes the MANAGE check, and the theorem then
yields the READ check on the same target. -/
theorem claim_C7_witness :
    has_leitura_em_secretaria
      ⟨[⟨1, none, some ⟨20, ⟨30⟩⟩, none, none, none, "GERENCIA"⟩], [], [], [], [], [], []⟩
      ⟨1, true, false, false⟩ (some ⟨20, ⟨30⟩⟩) = true
    ∧ has_leitura_em_setor
      ⟨[⟨1, none, none, none, none, some ⟨10, none, some ⟨20, ⟨30⟩⟩⟩, "GERENCIA"⟩], [], [], [], [], [], []⟩
      ⟨1, true, false, false⟩ (some ⟨10, none, some ⟨20, ⟨30⟩⟩⟩) = true :=
  ⟨claim_C7.1 _ _ _ (by decide), claim_C7.2 _ _ _ (by decide)⟩

/-- Claim C9: for a user object whose is-authenticated flag is false —
whatever its is-superuser / is-staff flags — `user_scope` returns the
all-empty scope and `user_can_feature` returns false for every feature name
and every target: authentication dominates the admin short-circuit. -/
theorem claim_C9 (db : DB) (u : User) (h : u.is_authenticated = false) :
    user_scope db u = emptyScope ∧
    ∀ (feature : String) (alvo : Option Alvo),
      user_can_feature db u feature alvo = .ok false := by
  have hauth : is_auth u = false := h
  constructor
  · simp [user_scope, hauth]
  · intro feature alvo
    simp [user_can_feature, hauth]

/-- Witness for C9 at a concrete input: an unauthenticated user carrying
both admin flags still gets the empty scope and a denied feature call. -/
theorem claim_C9_witness :
    user_scope ⟨[], [], [], [], [], [], []⟩ ⟨1, false, true, true⟩ = emptyScope
    ∧ user_can_feature ⟨[], [], [], [], [], [], []⟩ ⟨1, false, true, true⟩
        "VER_PAINEL" none = .ok false := by
  have h := claim_C9 ⟨[], [], [], [], [], [], []⟩ ⟨1, false, true, true⟩ rfl
  exact ⟨h.1, h.2 "VER_PAINEL" none⟩

/-- Counterexample to claim C8 as stated: a sector carrying both a
departamento-walked secretaria (id 21) and a direct legacy secretaria
(id 22).  `_resolve_chain_from_setor` (used by `user_scope`) returns the
direct reference, but the point-check resolver `_secretaria_do_setor`
returns the departamento-walked one (through `secretaria_oficial`), so not
every resolution path returns the direct reference. -/
theorem claim_C8_counterexample :
    (resolve_chain_from_setor ⟨11, some ⟨5, none, some ⟨21, ⟨31⟩⟩, none⟩, some ⟨22, ⟨32⟩⟩⟩).1
      = some ⟨22, ⟨32⟩⟩
    ∧ secretaria_do_setor (some ⟨11, some ⟨5, none, some ⟨21, ⟨31⟩⟩, none⟩, some ⟨22, ⟨32⟩⟩⟩)
      = some ⟨21, ⟨31⟩⟩
    ∧ (⟨11, some ⟨5, none, some ⟨21, ⟨31⟩⟩, none⟩, some ⟨22, ⟨32⟩⟩⟩ : Setor).secretaria
      = some ⟨22, ⟨32⟩⟩
    ∧ secretaria_do_setor (some ⟨11, some ⟨5, none, some ⟨21, ⟨31⟩⟩, none⟩, some ⟨22, ⟨32⟩⟩⟩)
      ≠ (⟨11, some ⟨5, none, some ⟨21, ⟨31⟩⟩, none⟩, some ⟨22, ⟨32⟩⟩⟩ : Setor).secretaria := by
  refine ⟨rfl, rfl, rfl, ?_⟩
  decide

/-- Claim C8 (amended): the two resolvers disagree on which reference is
preferred.  `user_scope`'s chain resolution (`_resolve_chain_from_setor`)
prefers the sector's direct legacy secretaria field, while the point-check
resolution (`_secretaria_do_setor`, via the `secretaria_oficial` property)
prefers the secretaria walked through the sector's departamento and falls
back to the direct legacy field only when the departamento has none. -/
theorem claim_C8 :
    (∀ (setor : Setor) (sec : Secretaria),
        setor.secretaria = some sec → sec.id ≠ 0 →
        (resolve_chain_from_setor setor).1 = some sec)
    ∧ (∀ (setor : Setor) (dep : Departamento) (dsec : Secretaria),
        setor.departamento = some dep → dep.secretaria = some dsec →
        secretaria_do_setor (some setor) = some dsec)
    ∧ (∀ (setor : Setor),
        setor.departamento = none →
        secretaria_do_setor (some setor) = setor.secretaria) := by
  refine ⟨?_, ?_, ?_⟩
  · intro setor sec hdir hid
    have hid' : optIdTruthy (setor.secretaria.map (·.id)) = true := by
      simp [optIdTruthy, hdir, hid]
    unfold resolve_chain_from_setor
    rw [hid', if_pos rfl, hdir]
    cases setor.departamento <;> rfl
  · intro setor dep dsec hdep hdsec
    unfold secretaria_do_setor Setor.secretaria_oficial
    dsimp only
    simp only [hdep, hdsec]
  · intro setor hdep
    unfold secretaria_do_setor Setor.secretaria_oficial
    dsimp only
    simp only [hdep]
    cases hs : setor.secretaria <;> simp [hs]

/-- Witness for C8 at concrete inputs: the chain resolver keeps the direct
legacy reference, the point-check resolver takes the departamento-walked
one, and with no departamento the point-check resolver falls back to the
direct field. -/
theorem claim_C8_witness :
    (resolve_chain_from_setor ⟨11, some ⟨5, none, some ⟨21, ⟨31⟩⟩, none⟩, some ⟨22, ⟨32⟩⟩⟩).1
      = some ⟨22, ⟨32⟩⟩
    ∧ secretaria_do_setor (some ⟨11, some ⟨5, none, some ⟨21, ⟨31⟩⟩, none⟩, some ⟨22, ⟨32⟩⟩⟩)
      = some ⟨21, ⟨31⟩⟩
    ∧ secretaria_do_setor (some ⟨12, none, some ⟨22, ⟨32⟩⟩⟩)
      = (⟨12, none, some ⟨22, ⟨32⟩⟩⟩ : Setor).secretaria :=
  ⟨claim_C8.1 _ ⟨22, ⟨32⟩⟩ rfl (by decide),
   claim_C8.2.1 _ ⟨5, none, some ⟨21, ⟨31⟩⟩, none⟩ ⟨21, ⟨31⟩⟩ rfl rfl,
   claim_C8.2.2 _ rfl⟩
/-- Claim C4: for a MANAGE-level feature with an Employee target,
`user_can_feature` returns true only if the user holds MANAGE on the
employee's sector AND the job-title policy (`has_funcao_permission` at
GERENCIA) returns true for that employee; in particular, whenever the
sector-level MANAGE check fails, the call returns false (never raising) no
matter what `FuncaoPermissao` rows exist — role policy never replaces the
base scope check.  (For non-admin users the successful case never
materializes: `has_funcao_permission` raises, so the call either returns
false or propagates the `FieldError`; the only true results are the admin
ones, where both conjuncts hold.) -/
theorem claim_C4 (db : DB) (u : User) (feature : String) (rule : FeatureRule)
    (f : Funcionario) (hr : featureRule feature = some rule)
    (hn : rule.nivel = GERENCIA) :
    (user_can_feature db u feature (some (.funcionario f)) = .ok true →
       has_gerencia_em_setor db u (some f.setor) = true
       ∧ has_funcao_permission db u f GERENCIA = .ok true)
    ∧ (has_gerencia_em_setor db u (some f.setor) = false →
       user_can_feature db u feature (some (.funcionario f)) = .ok false) := by
  have hcan : user_can_feature db u feature (some (.funcionario f))
      = (if !is_auth u then .ok false
         else if rule.superuser_only && !u.is_superuser then .ok false
         else has_gerencia_em_funcionario db u f) := by
    unfold user_can_feature
    cases hauth : is_auth u with
    | false => simp
    | true =>
      simp only [Bool.not_true, Bool.false_eq_true, if_false]
      rw [hr]
      dsimp only
      by_cases hso : (rule.superuser_only && !u.is_superuser) = true
      · simp [hso]
      · have hso' : (rule.superuser_only && !u.is_superuser) = false := by
          revert hso; cases rule.superuser_only && !u.is_superuser <;> simp
        simp only [hso', Bool.false_eq_true, if_false]
        rw [hn]
        simp [GERENCIA]
  constructor
  · intro h
    rw [hcan] at h
    by_cases hauth : is_auth u = true
    · rw [hauth] at h
      simp only [Bool.not_true, Bool.false_eq_true, if_false] at h
      by_cases hso : (rule.superuser_only && !u.is_superuser) = true
      · rw [if_pos hso] at h; simp at h
      · rw [if_neg hso] at h
        unfold has_gerencia_em_funcionario at h
        by_cases hg : has_gerencia_em_setor db u (some f.setor) = true
        · refine ⟨hg, ?_⟩
          rw [hg] at h
          simpa using h
        · have hg' : has_gerencia_em_setor db u (some f.setor) = false := by
            revert hg; cases has_gerencia_em_setor db u (some f.setor) <;> simp
          rw [hg'] at h
          simp at h
    · have hauth' : is_auth u = false := by
        revert hauth; cases is_auth u <;> simp
      rw [hauth'] at h
      simp at h
  · intro hg
    rw [hcan]
    unfold has_gerencia_em_funcionario
    rw [hg]
    simp

/-- Witness for C4 at a concrete input: a superuser's MANAGE call on an
employee succeeds, and the theorem extracts both conjuncts. -/
theorem claim_C4_witness :
    has_gerencia_em_setor ⟨[], [], [], [], [], [], []⟩ ⟨1, true, true, false⟩
      (some (⟨100, "professor", ⟨10, none, some ⟨20, ⟨30⟩⟩⟩, none⟩ : Funcionario).setor) = true
    ∧ has_funcao_permission ⟨[], [], [], [], [], [], []⟩ ⟨1, true, true, false⟩
        ⟨100, "professor", ⟨10, none, some ⟨20, ⟨30⟩⟩⟩, none⟩ GERENCIA = .ok true :=
  (claim_C4 ⟨[], [], [], [], [], [], []⟩ ⟨1, true, true, false⟩ "CAD_FUNCIONARIO"
      ⟨GERENCIA, false⟩ ⟨100, "professor", ⟨10, none, some ⟨20, ⟨30⟩⟩⟩, none⟩
      (by decide) rfl).1 (by decide)

/-- Claim C10 (code bug): the claimed empty-job-title decision procedure is
the (faithfully translated) body of `has_funcao_permission`, but it is
unreachable: for every authenticated non-admin user the function dies at
its first step — `assert_can_access_funcionario` runs the employee filter,
whose `setor__orgao...`/`setor__prefeitura` lookups name fields this
`Setor` model does not have, and the resulting `FieldError` propagates
uncaught — before any job-title logic runs. -/
theorem claim_C10 (db : DB) (u : User) (f : Funcionario) (r : String)
    (h1 : u.is_authenticated = true) (h2 : u.is_superuser = false)
    (h3 : u.is_staff = false) :
    has_funcao_permission db u f r = .error .fieldError := by
  have hauth : is_auth u = true := h1
  have hadm : user_is_admin u = false := by
    simp [user_is_admin, is_auth, h1, h2, h3]
  exact has_funcao_permission_error db u f r hauth hadm

/-- Witness for C10 at a concrete input: an authenticated non-admin user
with scope-granting rows, an employee with a whitespace-only job title and
a (would-be matching) `FuncaoPermissao` row — the call still raises. -/
theorem claim_C10_witness :
    has_funcao_permission
      ⟨[⟨1, none, some ⟨20, ⟨30⟩⟩, none, none, none, "LEITURA"⟩], [], [], [],
       [⟨1, ⟨10, none, some ⟨20, ⟨30⟩⟩⟩, "LEITURA"⟩],
       [⟨1, "", "GERENCIA", none, none⟩],
       [⟨100, "  ", ⟨10, none, some ⟨20, ⟨30⟩⟩⟩, none⟩]⟩
      ⟨1, true, false, false⟩ ⟨100, "  ", ⟨10, none, some ⟨20, ⟨30⟩⟩⟩, none⟩ LEITURA
      = .error .fieldError :=
  claim_C10 _ _ _ LEITURA rfl rfl rfl
/-- Counterexample to claim C2 as stated: a unified-grant (`UserScope`) row
whose populated target is sector 10, whose chain resolves to secretaria 20
and prefeitura 30 — the sector id lands in the scope but neither ancestor
does: `user_scope` upward-propagates only for the employee self-scope
(the `AcessoSetor` loop is dead and `UserScope` rows are added without
chain resolution). -/
theorem claim_C2_counterexample :
    resolve_chain_from_setor ⟨10, none, some ⟨20, ⟨30⟩⟩⟩ = (some ⟨20, ⟨30⟩⟩, some ⟨30⟩)
    ∧ (10 : Nat) ∈ (user_scope
        ⟨[⟨1, none, none, none, none, some ⟨10, none, some ⟨20, ⟨30⟩⟩⟩, "LEITURA"⟩],
         [], [], [], [], [], []⟩ ⟨1, true, false, false⟩).setores
    ∧ (20 : Nat) ∉ (user_scope
        ⟨[⟨1, none, none, none, none, some ⟨10, none, some ⟨20, ⟨30⟩⟩⟩, "LEITURA"⟩],
         [], [], [], [], [], []⟩ ⟨1, true, false, false⟩).secretarias
    ∧ (30 : Nat) ∉ (user_scope
        ⟨[⟨1, none, none, none, none, some ⟨10, none, some ⟨20, ⟨30⟩⟩⟩, "LEITURA"⟩],
         [], [], [], [], [], []⟩ ⟨1, true, false, false⟩).prefeituras := by
  refine ⟨rfl, ?_, ?_, ?_⟩ <;> decide

/-- Claim C2 (amended): for a non-admin authenticated user, upward
propagation of the chain-resolved secretaria and prefeitura happens only
for the linked employee's own sector (self-scope); a unified-grant
(`UserScope`) row with a sector target contributes just the sector's own
id; and legacy `AcessoSetor` grants contribute nothing at all — the scope
is invariant under the whole `AcessoSetor` table, because that loop dies
on a swallowed `FieldError` from its `select_related`. -/
theorem claim_C2 (db : DB) (u : User)
    (h1 : u.is_authenticated = true) (h2 : u.is_superuser = false)
    (h3 : u.is_staff = false) :
    (∀ f : Funcionario, userFuncionario db u = some f → f.setor.id ≠ 0 →
       f.setor.id ∈ (user_scope db u).setores
       ∧ (∀ sec : Secretaria, (resolve_chain_from_setor f.setor).1 = some sec →
            sec.id ≠ 0 → sec.id ∈ (user_scope db u).secretarias)
       ∧ (∀ pref : Prefeitura, (resolve_chain_from_setor f.setor).2 = some pref →
            pref.id ≠ 0 → pref.id ∈ (user_scope db u).prefeituras))
    ∧ (∀ s ∈ db.scopes, s.userId = u.id →
        ∀ st : Setor, s.setor = some st → st.id ≠ 0 →
          st.id ∈ (user_scope db u).setores)
    ∧ (∀ l : List AcessoSetorRow,
        user_scope { db with acessosSetor := l } u = user_scope db u) := by
  have hauth : is_auth u = true := h1
  have hadm : user_is_admin u = false := by
    simp [user_is_admin, is_auth, h1, h2, h3]
  refine ⟨?_, ?_, fun l => rfl⟩
  · intro f hf hid
    rw [user_scope_selfscope db u hauth hadm hf]
    exact ⟨addFuncionarioChain_mem_setores _ f hid,
      fun sec hsec hsid => addFuncionarioChain_mem_secretarias _ f hid hsec hsid,
      fun pref hpref hpid => addFuncionarioChain_mem_prefeituras _ f hid hpref hpid⟩
  · intro s hs hsu st hst hid
    obtain ⟨sc', hsub⟩ := sub_user_scope_after_scopes db u hauth hadm hs hsu
    exact hsub.2.1 (addUserScopeRow_mem_setores sc' s hst hid)

/-- Witness for C2 at a concrete input: the linked employee's sector 40
propagates its chain (secretaria 21, prefeitura 31), the `UserScope`
sector grant contributes sector 10, and adding an `AcessoSetor` row
changes nothing. -/
theorem claim_C2_witness :
    (40 : Nat) ∈ (user_scope
        ⟨[⟨1, none, none, none, none, some ⟨10, none, some ⟨20, ⟨30⟩⟩⟩, "LEITURA"⟩],
         [], [], [], [], [], [⟨100, "prof", ⟨40, none, some ⟨21, ⟨31⟩⟩⟩, some 1⟩]⟩
        ⟨1, true, false, false⟩).setores
    ∧ (21 : Nat) ∈ (user_scope
        ⟨[⟨1, none, none, none, none, some ⟨10, none, some ⟨20, ⟨30⟩⟩⟩, "LEITURA"⟩],
         [], [], [], [], [], [⟨100, "prof", ⟨40, none, some ⟨21, ⟨31⟩⟩⟩, some 1⟩]⟩
        ⟨1, true, false, false⟩).secretarias
    ∧ (31 : Nat) ∈ (user_scope
        ⟨[⟨1, none, none, none, none, some ⟨10, none, some ⟨20, ⟨30⟩⟩⟩, "LEITURA"⟩],
         [], [], [], [], [], [⟨100, "prof", ⟨40, none, some ⟨21, ⟨31⟩⟩⟩, some 1⟩]⟩
        ⟨1, true, false, false⟩).prefeituras
    ∧ (10 : Nat) ∈ (user_scope
        ⟨[⟨1, none, none, none, none, some ⟨10, none, some ⟨20, ⟨30⟩⟩⟩, "LEITURA"⟩],
         [], [], [], [], [], [⟨100, "prof", ⟨40, none, some ⟨21, ⟨31⟩⟩⟩, some 1⟩]⟩
        ⟨1, true, false, false⟩).setores
    ∧ user_scope
        ⟨[⟨1, none, none, none, none, some ⟨10, none, some ⟨20, ⟨30⟩⟩⟩, "LEITURA"⟩],
         [], [], [], [⟨1, ⟨50, none, some ⟨22, ⟨32⟩⟩⟩, "GERENCIA"⟩], [],
         [⟨100, "prof", ⟨40, none, some ⟨21, ⟨31⟩⟩⟩, some 1⟩]⟩
        ⟨1, true, false, false⟩
      = user_scope
        ⟨[⟨1, none, none, none, none, some ⟨10, none, some ⟨20, ⟨30⟩⟩⟩, "LEITURA"⟩],
         [], [], [], [], [],
         [⟨100, "prof", ⟨40, none, some ⟨21, ⟨31⟩⟩⟩, some 1⟩]⟩
        ⟨1, true, false, false⟩ := by
  have h := claim_C2
    ⟨[⟨1, none, none, none, none, some ⟨10, none, some ⟨20, ⟨30⟩⟩⟩, "LEITURA"⟩],
     [], [], [], [], [], [⟨100, "prof", ⟨40, none, some ⟨21, ⟨31⟩⟩⟩, some 1⟩]⟩
    ⟨1, true, false, false⟩ rfl rfl rfl
  obtain ⟨hst, hsec, hpref⟩ :=
    h.1 ⟨100, "prof", ⟨40, none, some ⟨21, ⟨31⟩⟩⟩, some 1⟩ rfl (by decide)
  exact ⟨hst, hsec ⟨21, ⟨31⟩⟩ rfl (by decide), hpref ⟨31⟩ rfl (by decide),
    h.2.1 ⟨1, none, none, none, none, some ⟨10, none, some ⟨20, ⟨30⟩⟩⟩, "LEITURA"⟩
      (by decide) rfl ⟨10, none, some ⟨20, ⟨30⟩⟩⟩ rfl (by decide),
    h.2.2 [⟨1, ⟨50, none, some ⟨22, ⟨32⟩⟩⟩, "GERENCIA"⟩]⟩
/-- Counterexample to claim C3 as stated: the user's only grant is a
READ-level `AcessoSetor` row on sector 10 whose chain resolves to
secretaria 20 and prefeitura 30, yet the resulting scope is entirely empty
— neither ancestor (nor even the sector itself) appears in the visibility
sets, because the `AcessoSetor` loop of `user_scope` dies on its swallowed
`select_related` `FieldError`. -/
theorem claim_C3_counterexample :
    resolve_chain_from_setor ⟨10, none, some ⟨20, ⟨30⟩⟩⟩ = (some ⟨20, ⟨30⟩⟩, some ⟨30⟩)
    ∧ user_scope ⟨[], [], [], [], [⟨1, ⟨10, none, some ⟨20, ⟨30⟩⟩⟩, "LEITURA"⟩], [], []⟩
        ⟨1, true, false, false⟩ = emptyScope
    ∧ (20 : Nat) ∉ (user_scope
        ⟨[], [], [], [], [⟨1, ⟨10, none, some ⟨20, ⟨30⟩⟩⟩, "LEITURA"⟩], [], []⟩
        ⟨1, true, false, false⟩).secretarias
    ∧ (30 : Nat) ∉ (user_scope
        ⟨[], [], [], [], [⟨1, ⟨10, none, some ⟨20, ⟨30⟩⟩⟩, "LEITURA"⟩], [], []⟩
        ⟨1, true, false, false⟩).prefeituras := by
  refine ⟨rfl, ?_, ?_, ?_⟩ <;> decide

/-- Claim C3 (amended): for a non-admin authenticated user whose only grant
is a READ-level `AcessoSetor` row on sector S, the visibility sets stay
entirely empty — the grant contributes nothing, ancestors included, since
its loop dies on the swallowed `FieldError` — and the permission half of
the claim does hold: `user_can_feature` returns false for every
MANAGE-level catalog feature targeting S's resolved secretaria. -/
theorem claim_C3 (db : DB) (u : User) (x : AcessoSetorRow) (S : Setor)
    (sec : Secretaria) (pref : Prefeitura)
    (h1 : u.is_authenticated = true) (h2 : u.is_superuser = false)
    (h3 : u.is_staff = false)
    (hx : x ∈ db.acessosSetor) (hxu : x.userId = u.id) (hxs : x.setor = S)
    (hxn : x.nivel = "LEITURA")
    (hchain : resolve_chain_from_setor S = (some sec, some pref))
    (hnoscopes : ∀ s ∈ db.scopes, s.userId ≠ u.id)
    (hnosec : ∀ a ∈ db.acessosSecretaria, a.userId ≠ u.id)
    (hnopref : ∀ a ∈ db.acessosPrefeitura, a.userId ≠ u.id)
    (hnoesc : ∀ a ∈ db.acessosEscola, a.userId ≠ u.id)
    (hnofunc : ∀ g ∈ db.funcionarios, g.userId ≠ some u.id) :
    user_scope db u = emptyScope
    ∧ sec.id ∉ (user_scope db u).secretarias
    ∧ pref.id ∉ (user_scope db u).prefeituras
    ∧ ∀ (feature : String) (rule : FeatureRule),
        featureRule feature = some rule → rule.nivel = GERENCIA →
        user_can_feature db u feature (some (.secretaria sec)) = .ok false := by
  have hauth : is_auth u = true := h1
  have hadm : user_is_admin u = false := by
    simp [user_is_admin, is_auth, h1, h2, h3]
  have hsc := user_scope_empty_of_no_rows db u hauth hadm
    hnoscopes hnopref hnosec hnoesc hnofunc
  refine ⟨hsc, by rw [hsc]; simp [emptyScope], by rw [hsc]; simp [emptyScope], ?_⟩
  intro feature rule hr hn
  unfold user_can_feature
  simp only [hauth, Bool.not_true, Bool.false_eq_true, if_false]
  rw [hr]
  dsimp only
  by_cases hso : (rule.superuser_only && !u.is_superuser) = true
  · simp [hso]
  · have hso' : (rule.superuser_only && !u.is_superuser) = false := by
      revert hso; cases rule.superuser_only && !u.is_superuser <;> simp
    simp only [hso', Bool.false_eq_true, if_false]
    rw [hn]
    simp only [GERENCIA, beq_self_eq_true, if_true]
    rw [has_gerencia_em_secretaria_false db u (some sec) hadm hnoscopes hnosec]

/-- Witness for C3 at a concrete input: the single READ grant on sector 10
leaves the scope empty and the MANAGE feature CAD_FUNCIONARIO on the
resolved secretaria 20 is denied. -/
theorem claim_C3_witness :
    user_scope ⟨[], [], [], [], [⟨1, ⟨10, none, some ⟨20, ⟨30⟩⟩⟩, "LEITURA"⟩], [], []⟩
      ⟨1, true, false, false⟩ = emptyScope
    ∧ (20 : Nat) ∉ (user_scope
        ⟨[], [], [], [], [⟨1, ⟨10, none, some ⟨20, ⟨30⟩⟩⟩, "LEITURA"⟩], [], []⟩
        ⟨1, true, false, false⟩).secretarias
    ∧ user_can_feature
        ⟨[], [], [], [], [⟨1, ⟨10, none, some ⟨20, ⟨30⟩⟩⟩, "LEITURA"⟩], [], []⟩
        ⟨1, true, false, false⟩ "CAD_FUNCIONARIO"
        (some (.secretaria ⟨20, ⟨30⟩⟩)) = .ok false := by
  have h := claim_C3
    ⟨[], [], [], [], [⟨1, ⟨10, none, some ⟨20, ⟨30⟩⟩⟩, "LEITURA"⟩], [], []⟩
    ⟨1, true, false, false⟩ ⟨1, ⟨10, none, some ⟨20, ⟨30⟩⟩⟩, "LEITURA"⟩
    ⟨10, none, some ⟨20, ⟨30⟩⟩⟩ ⟨20, ⟨30⟩⟩ ⟨30⟩
    rfl rfl rfl (by decide) rfl rfl rfl rfl
    (by decide) (by decide) (by decide) (by decide) (by decide)
  exact ⟨h.1, h.2.1, h.2.2.2 "CAD_FUNCIONARIO" ⟨GERENCIA, false⟩ rfl rfl⟩

/-- Counterexample to claim C5 as stated: the user's only grant is a legacy
`AcessoSetor` row with nivel GERENCIA on sector 10, CAD_HORARIO is a
MANAGE-level catalog feature, yet the feature call targeting that sector
returns false — the point checks consult only `UserScope` and
`AcessoSecretaria` rows and ignore `AcessoSetor` entirely. -/
theorem claim_C5_counterexample :
    featureRule "CAD_HORARIO" = some ⟨GERENCIA, false⟩
    ∧ user_can_feature
        ⟨[], [], [], [], [⟨1, ⟨10, none, some ⟨20, ⟨30⟩⟩⟩, "GERENCIA"⟩], [], []⟩
        ⟨1, true, false, false⟩ "CAD_HORARIO"
        (some (.setor ⟨10, none, some ⟨20, ⟨30⟩⟩⟩)) = .ok false := by
  refine ⟨rfl, ?_⟩
  decide

/-- Claim C5 (amended): a MANAGE-level grant reaches the sector point check
through the unified table: for every authenticated user holding a
`UserScope` row with the sector populated and nivel GERENCIA on sector S,
`user_can_feature` returns true for every MANAGE-level catalog feature
targeting S whose superuser-only flag does not exclude the user.  A legacy
`AcessoSetor` GERENCIA row does not provide this (see the
counterexample). -/
theorem claim_C5 (db : DB) (u : User) (feature : String) (rule : FeatureRule)
    (S : Setor) (s : UserScopeRow)
    (h1 : u.is_authenticated = true)
    (hr : featureRule feature = some rule) (hn : rule.nivel = GERENCIA)
    (hsu : rule.superuser_only = true → u.is_superuser = true)
    (hs : s ∈ db.scopes) (hsuid : s.userId = u.id)
    (hsst : s.setor.map (·.id) = some S.id) (hsn : s.nivel = "GERENCIA") :
    user_can_feature db u feature (some (.setor S)) = .ok true := by
  have hauth : is_auth u = true := h1
  unfold user_can_feature
  simp only [hauth, Bool.not_true, Bool.false_eq_true, if_false]
  rw [hr]
  dsimp only
  have hso' : (rule.superuser_only && !u.is_superuser) = false := by
    cases hso : rule.superuser_only with
    | false => rfl
    | true => rw [hsu hso]; rfl
  simp only [hso', Bool.false_eq_true, if_false]
  rw [hn]
  simp only [GERENCIA, beq_self_eq_true, if_true]
  unfold has_gerencia_em_setor
  have hany : (db.scopes.any fun a => a.userId == u.id &&
      (a.setor.map (·.id) == some S.id && a.nivel == "GERENCIA")) = true :=
    List.any_eq_true.mpr ⟨s, hs, by simp [hsuid, hsst, hsn]⟩
  by_cases hadm : user_is_admin u = true
  · simp [hadm]
  · have hadm' : user_is_admin u = false := by
      revert hadm; cases user_is_admin u <;> simp
    simp [hadm', hany]

/-- Witness for C5 at a concrete input: a unified GERENCIA grant on sector
10 lets CAD_HORARIO pass on that sector. -/
theorem claim_C5_witness :
    user_can_feature
      ⟨[⟨1, none, none, none, none, some ⟨10, none, some ⟨20, ⟨30⟩⟩⟩, "GERENCIA"⟩],
       [], [], [], [], [], []⟩
      ⟨1, true, false, false⟩ "CAD_HORARIO"
      (some (.setor ⟨10, none, some ⟨20, ⟨30⟩⟩⟩)) = .ok true :=
  claim_C5
    ⟨[⟨1, none, none, none, none, some ⟨10, none, some ⟨20, ⟨30⟩⟩⟩, "GERENCIA"⟩],
     [], [], [], [], [], []⟩
    ⟨1, true, false, false⟩ "CAD_HORARIO" ⟨GERENCIA, false⟩
    ⟨10, none, some ⟨20, ⟨30⟩⟩⟩
    ⟨1, none, none, none, none, some ⟨10, none, some ⟨20, ⟨30⟩⟩⟩, "GERENCIA"⟩
    rfl rfl rfl (by simp) (by decide) rfl rfl rfl
/-- The targets on which an admin/staff feature call is guaranteed to
succeed: any recognized entity, where a legacy `Departamento` must expose a
secretaria or prefeitura parent (one with an Escola parent, or an object of
unrecognized type, is denied even for admins by the dispatch
fall-through). -/
def admissibleAlvo : Option Alvo → Bool
  | none => true
  | some (.funcionario _) => true
  | some (.setor _) => true
  | some (.secretaria _) => true
  | some (.prefeitura _) => true
  | some (.escola _) => true
  | some (.departamento d) => d.secretaria.isSome || d.prefeitura.isSome
  | some .outro => false

/-- Counterexample to claim C1 as stated: a staff-only (non-superuser) user
is denied the catalog feature ACESSOS_CONCEDER, whose rule carries the
superuser-only flag — so not every feature call returns true for every
admin/staff user. -/
theorem claim_C1_counterexample :
    (⟨1, true, false, true⟩ : User).is_staff = true
    ∧ featureRule "ACESSOS_CONCEDER" = some ⟨GERENCIA, true⟩
    ∧ user_can_feature ⟨[], [], [], [], [], [], []⟩ ⟨1, true, false, true⟩
        "ACESSOS_CONCEDER" none = .ok false := by
  refine ⟨rfl, rfl, ?_⟩
  decide

/-- Claim C1 (amended): for every admin/staff user, `user_scope` returns
the unrestricted sentinel, every filter returns its input unchanged (the
admin short-circuit precedes the broken lookups), and every catalog
feature call returns true provided the feature's superuser-only flag does
not exclude the user and the target is a recognized entity
(`admissibleAlvo`). -/
theorem claim_C1 (db : DB) (u : User)
    (h1 : u.is_authenticated = true)
    (hor : u.is_superuser = true ∨ u.is_staff = true) :
    (user_scope db u).all = true
    ∧ (∀ qs, filter_setores_by_scope db qs u = .ok qs)
    ∧ (∀ qs, filter_funcionarios_by_scope db qs u = .ok qs)
    ∧ (∀ qs, filter_folhas_by_scope db qs u = .ok qs)
    ∧ (∀ qs, filter_horarios_by_scope db qs u = .ok qs)
    ∧ (∀ (feature : String) (rule : FeatureRule),
        featureRule feature = some rule →
        (rule.superuser_only = true → u.is_superuser = true) →
        ∀ alvo, admissibleAlvo alvo = true →
        user_can_feature db u feature alvo = .ok true) := by
  have hauth : is_auth u = true := h1
  have hadm : user_is_admin u = true := by
    rcases hor with h | h <;> simp [user_is_admin, is_auth, h1, h]
  refine ⟨by simp [user_scope, hauth, hadm],
          fun qs => by simp [filter_setores_by_scope, user_scope, hauth, hadm],
          fun qs => by simp [filter_funcionarios_by_scope, user_scope, hauth, hadm],
          fun qs => by simp [filter_folhas_by_scope, user_scope, hauth, hadm],
          fun qs => by simp [filter_horarios_by_scope, user_scope, hauth, hadm],
          ?_⟩
  intro feature rule hr hsu alvo ha
  unfold user_can_feature
  simp only [hauth, Bool.not_true, Bool.false_eq_true, if_false]
  rw [hr]
  dsimp only
  have hso' : (rule.superuser_only && !u.is_superuser) = false := by
    cases hso : rule.superuser_only with
    | false => rfl
    | true => rw [hsu hso]; rfl
  simp only [hso', Bool.false_eq_true, if_false]
  cases alvo with
  | none => simp [hadm]
  | some a =>
    cases a with
    | funcionario f =>
      by_cases hg : rule.nivel == GERENCIA
      · simp [hg, has_gerencia_em_funcionario_admin db u f hadm]
      · simp [hg, has_leitura_em_funcionario, has_leitura_em_setor_admin db u f.setor hadm]
    | setor st =>
      by_cases hg : rule.nivel == GERENCIA
      · simp [hg, has_gerencia_em_setor_admin db u st hadm]
      · simp [hg, has_leitura_em_setor_admin db u st hadm]
    | secretaria sec =>
      by_cases hg : rule.nivel == GERENCIA
      · simp [hg, has_gerencia_em_secretaria_admin db u sec hadm]
      · simp [hg, has_leitura_em_secretaria_admin db u sec hadm]
    | prefeitura p => simp [hadm]
    | escola e =>
      cases he : e.secretaria with
      | none => simp [he, hadm]
      | some sec =>
        by_cases hg : rule.nivel == GERENCIA
        · simp [he, hg, has_gerencia_em_secretaria_admin db u sec hadm]
        · simp [he, hg, has_leitura_em_secretaria_admin db u sec hadm]
    | departamento d =>
      cases hds : d.secretaria with
      | some sec =>
        by_cases hg : rule.nivel == GERENCIA
        · simp [hds, hg, has_gerencia_em_secretaria_admin db u sec hadm]
        · simp [hds, hg, has_leitura_em_secretaria_admin db u sec hadm]
      | none =>
        cases hdp : d.prefeitura with
        | some p =>
          by_cases hg : rule.nivel == GERENCIA
          · simp [hds, hdp, hg, hadm]
          · simp [hds, hdp, hg]
        | none =>
          exfalso
          simp [admissibleAlvo, hds, hdp] at ha
    | outro => simp [admissibleAlvo] at ha

/-- Witness for C1 at a concrete input: a superuser gets the unrestricted
scope, identity filters and an allowed superuser-only feature call on a
sector target. -/
theorem claim_C1_witness :
    (user_scope ⟨[], [], [], [], [], [], []⟩ ⟨1, true, true, false⟩).all = true
    ∧ filter_setores_by_scope ⟨[], [], [], [], [], [], []⟩
        [⟨10, none, some ⟨20, ⟨30⟩⟩⟩] ⟨1, true, true, false⟩
        = .ok [⟨10, none, some ⟨20, ⟨30⟩⟩⟩]
    ∧ user_can_feature ⟨[], [], [], [], [], [], []⟩ ⟨1, true, true, false⟩
        "ACESSOS_CONCEDER" (some (.setor ⟨10, none, some ⟨20, ⟨30⟩⟩⟩)) = .ok true := by
  have h := claim_C1 ⟨[], [], [], [], [], [], []⟩ ⟨1, true, true, false⟩ rfl (Or.inl rfl)
  exact ⟨h.1, h.2.1 _,
    h.2.2.2.2.2 "ACESSOS_CONCEDER" ⟨GERENCIA, true⟩ rfl (fun _ => rfl)
      (some (.setor ⟨10, none, some ⟨20, ⟨30⟩⟩⟩)) rfl⟩
/-- No row of any grant table belongs to the user and no employee record is
linked to it (`FuncaoPermissao` rows are irrelevant here and may exist). -/
def NoGrants (db : DB) (u : User) : Prop :=
  (∀ s ∈ db.scopes, s.userId ≠ u.id) ∧
  (∀ x ∈ db.acessosPrefeitura, x.userId ≠ u.id) ∧
  (∀ x ∈ db.acessosSecretaria, x.userId ≠ u.id) ∧
  (∀ x ∈ db.acessosEscola, x.userId ≠ u.id) ∧
  (∀ x ∈ db.acessosSetor, x.userId ≠ u.id) ∧
  (∀ f ∈ db.funcionarios, f.userId ≠ some u.id)

/-- Counterexample to claim C6 as stated, on two counts for an
authenticated user with no grants of any kind: the employee filter does
not return zero rows — it raises `FieldError` (the claim's filters never
return for non-admins) — and the READ-level catalog feature VER_PAINEL on
a legacy `Departamento` target whose parent is a prefeitura is allowed,
not denied. -/
theorem claim_C6_counterexample :
    featureRule "VER_PAINEL" = some ⟨LEITURA, false⟩
    ∧ user_scope ⟨[], [], [], [], [], [], []⟩ ⟨1, true, false, false⟩ = emptyScope
    ∧ filter_funcionarios_by_scope ⟨[], [], [], [], [], [], []⟩
        [⟨100, "prof", ⟨10, none, some ⟨20, ⟨30⟩⟩⟩, none⟩] ⟨1, true, false, false⟩
        = .error .fieldError
    ∧ user_can_feature ⟨[], [], [], [], [], [], []⟩ ⟨1, true, false, false⟩
        "VER_PAINEL" (some (.departamento ⟨6, some ⟨30⟩, none, none⟩)) = .ok true := by
  refine ⟨rfl, ?_, ?_, ?_⟩ <;> decide

/-- Claim C6 (amended): for an authenticated non-admin user with no grant
rows in any grant table, no `UserScope` rows and no linked employee,
`user_scope` returns the all-empty scope; every filter raises `FieldError`
on any input (instead of returning zero rows — the scope disjunctions name
fields `Setor` does not have); and `user_can_feature` with a non-None
target returns false — except for a legacy `Departamento` target with no
secretaria and a prefeitura parent, where a catalog feature that is neither
MANAGE-level nor superuser-only returns true (the last conjunct
characterizes that dispatch exactly). -/
theorem claim_C6 (db : DB) (u : User)
    (h1 : u.is_authenticated = true) (h2 : u.is_superuser = false)
    (h3 : u.is_staff = false) (hg : NoGrants db u) :
    user_scope db u = emptyScope
    ∧ (∀ qs, filter_setores_by_scope db qs u = .error .fieldError)
    ∧ (∀ qs, filter_funcionarios_by_scope db qs u = .error .fieldError)
    ∧ (∀ qs, filter_folhas_by_scope db qs u = .error .fieldError)
    ∧ (∀ qs, filter_horarios_by_scope db qs u = .error .fieldError)
    ∧ (∀ (feature : String) (alvo : Option Alvo),
        featureRule feature = none → user_can_feature db u feature alvo = .ok false)
    ∧ (∀ (feature : String) (alvo : Option Alvo),
        (∀ d, alvo ≠ some (.departamento d)) → alvo ≠ none →
        user_can_feature db u feature alvo = .ok false)
    ∧ (∀ (feature : String) (rule : FeatureRule) (d : Departamento),
        featureRule feature = some rule →
        user_can_feature db u feature (some (.departamento d)) =
          .ok (d.secretaria.isNone &&
            (d.prefeitura.isSome && ((rule.nivel != GERENCIA) && !rule.superuser_only)))) := by
  have hauth : is_auth u = true := h1
  have hadm : user_is_admin u = false := by
    simp [user_is_admin, is_auth, h1, h2, h3]
  have hsc := user_scope_empty_of_no_rows db u hauth hadm
    hg.1 hg.2.1 hg.2.2.1 hg.2.2.2.1 hg.2.2.2.2.2
  refine ⟨hsc, fun qs => filter_setores_error db qs u hadm,
          fun qs => filter_funcionarios_error db qs u hadm,
          fun qs => filter_folhas_error db qs u hadm,
          fun qs => filter_horarios_error db qs u hadm, ?_, ?_, ?_⟩
  · intro feature alvo hrn
    unfold user_can_feature
    rw [hrn]
    simp [hauth]
  · intro feature alvo hnd hnn
    unfold user_can_feature
    simp only [hauth, Bool.not_true, Bool.false_eq_true, if_false]
    cases hr : featureRule feature with
    | none => rfl
    | some rule =>
      dsimp only
      by_cases hso : (rule.superuser_only && !u.is_superuser) = true
      · simp [hso]
      · have hso' : (rule.superuser_only && !u.is_superuser) = false := by
          revert hso; cases rule.superuser_only && !u.is_superuser <;> simp
        simp only [hso', Bool.false_eq_true, if_false]
        cases alvo with
        | none => exact absurd rfl hnn
        | some a =>
          cases a with
          | funcionario f =>
            by_cases hgn : rule.nivel == GERENCIA
            · have hgs := has_gerencia_em_setor_false db u (some f.setor) hadm hg.1 hg.2.2.1
              simp only [hgn, if_true]
              unfold has_gerencia_em_funcionario
              rw [hgs]
              simp
            · simp only [hgn, Bool.false_eq_true, if_false, has_leitura_em_funcionario]
              rw [has_leitura_em_setor_false db u (some f.setor) hadm hg.1 hg.2.2.1]
          | setor st =>
            by_cases hgn : rule.nivel == GERENCIA
            · simp only [hgn, if_true]
              rw [has_gerencia_em_setor_false db u (some st) hadm hg.1 hg.2.2.1]
            · simp only [hgn, Bool.false_eq_true, if_false]
              rw [has_leitura_em_setor_false db u (some st) hadm hg.1 hg.2.2.1]
          | secretaria sec =>
            by_cases hgn : rule.nivel == GERENCIA
            · simp only [hgn, if_true]
              rw [has_gerencia_em_secretaria_false db u (some sec) hadm hg.1 hg.2.2.1]
            · simp only [hgn, Bool.false_eq_true, if_false]
              rw [has_leitura_em_secretaria_false db u (some sec) hadm hg.1 hg.2.2.1]
          | prefeitura p =>
            simp only [hadm, Bool.false_eq_true, if_false]
            by_cases hgn : rule.nivel == GERENCIA
            · simp only [hgn, if_true]
              rw [scopes_any_false db u _ hg.1]
            · simp only [hgn, Bool.false_eq_true, if_false]
              have : (db.scopes.any fun s =>
                  s.userId == u.id && s.prefeitura.map (·.id) == some p.id) = false :=
                scopes_any_false db u _ hg.1
              rw [this]
          | escola e =>
            cases he : e.secretaria with
            | none => simp [he, hadm]
            | some sec =>
              by_cases hgn : rule.nivel == GERENCIA
              · simp only [he, hgn, if_true]
                rw [has_gerencia_em_secretaria_false db u (some sec) hadm hg.1 hg.2.2.1]
              · simp only [he, hgn, Bool.false_eq_true, if_false]
                rw [has_leitura_em_secretaria_false db u (some sec) hadm hg.1 hg.2.2.1]
          | departamento d => exact absurd rfl (hnd d)
          | outro => rfl
  · intro feature rule d hr
    unfold user_can_feature
    simp only [hauth, Bool.not_true, Bool.false_eq_true, if_false]
    rw [hr]
    dsimp only
    cases hso : rule.superuser_only with
    | true =>
      simp [h2, hso]
    | false =>
      simp only [hso, Bool.false_and, Bool.false_eq_true, if_false]
      cases hds : d.secretaria with
      | some sec =>
        by_cases hgn : rule.nivel == GERENCIA
        · simp only [hds, hgn, if_true, Option.isNone_some, Bool.false_and]
          rw [has_gerencia_em_secretaria_false db u (some sec) hadm hg.1 hg.2.2.1]
        · simp only [hds, hgn, Bool.false_eq_true, if_false, Option.isNone_some, Bool.false_and]
          rw [has_leitura_em_secretaria_false db u (some sec) hadm hg.1 hg.2.2.1]
      | none =>
        cases hdp : d.prefeitura with
        | some p =>
          by_cases hgn : rule.nivel == GERENCIA
          · simp [hds, hdp, hadm, hgn, bne]
          · have hgn' : (rule.nivel == GERENCIA) = false := by
              revert hgn; cases rule.nivel == GERENCIA <;> simp
            simp [hds, hdp, hgn', bne]
        | none => simp [hds, hdp]

/-- Witness for C6 at a concrete input: a grantless authenticated user gets
the empty scope, a `FieldError` from the employee filter, a denied
employee-target call, and the departamento dispatch equation evaluates to a
denial for a MANAGE feature. -/
theorem claim_C6_witness :
    user_scope ⟨[], [], [], [], [], [],
        [⟨100, "diretor", ⟨10, none, some ⟨20, ⟨30⟩⟩⟩, some 2⟩]⟩
      ⟨1, true, false, false⟩ = emptyScope
    ∧ filter_funcionarios_by_scope ⟨[], [], [], [], [], [],
        [⟨100, "diretor", ⟨10, none, some ⟨20, ⟨30⟩⟩⟩, some 2⟩]⟩
        [⟨100, "diretor", ⟨10, none, some ⟨20, ⟨30⟩⟩⟩, some 2⟩]
        ⟨1, true, false, false⟩ = .error .fieldError
    ∧ user_can_feature ⟨[], [], [], [], [], [],
        [⟨100, "diretor", ⟨10, none, some ⟨20, ⟨30⟩⟩⟩, some 2⟩]⟩
        ⟨1, true, false, false⟩ "VER_FUNCIONARIOS"
        (some (.funcionario ⟨100, "diretor", ⟨10, none, some ⟨20, ⟨30⟩⟩⟩, some 2⟩)) = .ok false
    ∧ user_can_feature ⟨[], [], [], [], [], [],
        [⟨100, "diretor", ⟨10, none, some ⟨20, ⟨30⟩⟩⟩, some 2⟩]⟩
        ⟨1, true, false, false⟩ "CAD_FUNCIONARIO"
        (some (.departamento ⟨6, some ⟨30⟩, none, none⟩)) = .ok false := by
  have h := claim_C6
    ⟨[], [], [], [], [], [], [⟨100, "diretor", ⟨10, none, some ⟨20, ⟨30⟩⟩⟩, some 2⟩]⟩
    ⟨1, true, false, false⟩ rfl rfl rfl
    (by unfold NoGrants
        exact ⟨by decide, by decide, by decide, by decide, by decide, by decide⟩)
  refine ⟨h.1, h.2.2.1 _, ?_, ?_⟩
  · exact h.2.2.2.2.2.2.1 "VER_FUNCIONARIOS" _ (fun d => by simp) (by simp)
  · exact (h.2.2.2.2.2.2.2 "CAD_FUNCIONARIO" ⟨GERENCIA, false⟩
      ⟨6, some ⟨30⟩, none, none⟩ rfl).trans (by decide)
